import Mathlib

/-!
canvasNote: note manager and template manager.

A shallow embedding of the state-handling code of the canvas note application
(`src/components/NoteManager.js`, `src/components/TemplateManager.js`,
`src/components/CustomTemplateRenderer.js`, `src/templates/TemplateRegistry.js`,
`src/templates/BaseTemplate.js`, `src/templates/NoteTemplates.js`,
`src/utils/templateHelper.js`, `src/components/TemplateEditor.js`, the context
menu of `src/components/Canvas.js` and the resize handlers of the code-note
and task-list templates) and the properties of its operations.

JavaScript values are embedded as the type `Val`; an object is its list of own
properties, in insertion order (`Props`).  A read with a computed key
(`templateMap[id]`, `this.themes[themeName]`) also sees the members every
object inherits (`Props.lookup`).  React state is passed explicitly: an
operation takes the committed state and returns the state after its updater
functions have run.
-/

namespace CanvasNote

/-! ## JavaScript values -/

mutual
/-- A JavaScript value.  Numbers are integers (no floating point, no NaN);
functions are opaque references; objects have no identity of their own. -/
inductive Val where
  | undefined
  | null
  | bool (b : Bool)
  | num (n : Int)
  | str (s : String)
  | func (ref : Nat)
  | obj (props : Props)
  deriving DecidableEq
/-- The own enumerable properties of an object, oldest first.  When a key
occurs twice the later entry is the one that counts, as in an object literal. -/
inductive Props where
  | nil
  | cons (key : String) (value : Val) (rest : Props)
  deriving DecidableEq
end

/-- The error a JavaScript operation throws. -/
inductive JsError where
  | typeError (message : String)
  deriving DecidableEq

namespace Props

/-- The object literal with the given properties. -/
def ofList : List (String × Val) → Props
  | [] => .nil
  | (k, v) :: rest => .cons k v (ofList rest)

/-- Whether `k` is an own property (`k in obj`, for own properties). -/
def has (k : String) : Props → Bool
  | .nil => false
  | .cons key _ rest => key == k || has k rest

/-- Property read `obj[k]` on an object: `undefined` when the key is absent. -/
def get (k : String) : Props → Val
  | .nil => .undefined
  | .cons key value rest =>
    if has k rest then get k rest else if key == k then value else .undefined

/-- Property write `obj[k] = v`: an existing key keeps its place, a new key
goes last. -/
def set (k : String) (v : Val) : Props → Props
  | .nil => .cons k v .nil
  | .cons key value rest =>
    if key == k then .cons key v (if has k rest then set k v rest else rest)
    else .cons key value (set k v rest)

/-- Copies every property of `source` onto `target`, in order. The loop of
`Object.assign(target, source)` and of a spread element. -/
def assign (target : Props) : Props → Props
  | .nil => target
  | .cons key value rest => assign (set key value target) rest

/-- The number of properties listed. -/
def size : Props → Nat
  | .nil => 0
  | .cons _ _ rest => size rest + 1

end Props

/-- The property list of a string: one property per character, keyed by its
index (characters of the basic plane, one code unit each). -/
def charProps : Nat → List Char → Props
  | _, [] => .nil
  | i, c :: cs => .cons (toString i) (.str (String.singleton c)) (charProps (i + 1) cs)

namespace Val

/-- JavaScript truthiness (`!!v`). -/
def truthy : Val → Bool
  | .undefined => false
  | .null => false
  | .bool b => b
  | .num n => n != 0
  | .str s => s != ""
  | .func _ => true
  | .obj _ => true

/-- The own enumerable properties a spread element `...v` copies. -/
def ownProps : Val → Props
  | .obj p => p
  | .str s => charProps 0 s.toList
  | _ => .nil

/-- The operator `a || b`. -/
def or (a b : Val) : Val := if a.truthy then a else b

end Val

/-- Strict equality `a === b` on the values of the embedding. -/
def strictEq (a b : Val) : Bool := decide (a = b)

/-- The object literal `{ ...a }`. -/
def spread (a : Val) : Props := Props.nil.assign a.ownProps

/-- The object literal `{ ...a, ...b }`. -/
def spread2 (a b : Val) : Props := (Props.nil.assign a.ownProps).assign b.ownProps

/-- The value of an argument that may be absent: `undefined` for `none`. -/
def optVal : Option Props → Val
  | none => .undefined
  | some p => .obj p

/-- Member access `v.k` on a value that may be absent (`none` stands for
`undefined` or `null`): reading a property of an absent value throws. -/
def member (v : Option Props) (k : String) : Except JsError Val :=
  match v with
  | none => .error (.typeError ("Cannot read properties of undefined (reading " ++ k ++ ")"))
  | some p => .ok (p.get k)

/-! ## NoteManager -/

namespace NoteManager

/-- The state held by the `NoteManager` component: `notes` and
`selectedNoteId`. -/
structure State where
  notes : List Props
  selectedNoteId : Val
  deriving DecidableEq

/-- The size every new note gets: `{ width: 250, height: 150 }`. -/
def standardSize : Val :=
  .obj (Props.ofList [("width", .num 250), ("height", .num 150)])

/-- The template `addNote` uses: `templates.find(t => t.id === templateId)`,
else `templates[0]` when there is one, else nothing. -/
def resolveTemplate (templates : List Props) (templateId : Val) : Option Props :=
  let template := templates.find? (fun t => strictEq (t.get "id") templateId)
  if template.isNone && decide (templates.length > 0) then templates.head? else template

/-- The object literal `newNote` of `addNote`; `count` is `notes.length`. -/
def newNote (template : Props) (noteId position : Val) (count : Nat) : Props :=
  Props.ofList
    [ ("id", noteId),
      ("templateId", template.get "id"),
      ("position", position),
      ("size", standardSize),
      ("content", (template.get "defaultContent").or (.str "")),
      ("zIndex", .num ((count : Int) + 1)),
      ("behaviors",
        if (template.get "behaviors").truthy then .obj (spread (template.get "behaviors"))
        else .obj .nil),
      ("customControls",
        if (template.get "customControls").truthy then
          .obj (spread (template.get "customControls"))
        else .obj .nil) ]

/-- The callback `addNote(position, templateId)`.  `templates` is the template
list of the context, `uuid` the string `uuidv4()` returns.  Gives the returned
value and the state after the call.  The call runs on the committed state:
`s.notes` is the `notes` the callback closes over (it is rebuilt whenever
`notes` changes) and the `prevNotes` its updater receives. -/
def addNote (templates : List Props) (uuid : String) (position templateId : Val)
    (s : State) : Val × State :=
  match resolveTemplate templates templateId with
  | none => (.null, s)
  | some template =>
    let noteId := Val.str ("note-" ++ uuid)
    let note := newNote template noteId position s.notes.length
    (noteId, { s with notes := s.notes ++ [note] })

/-- The callback `selectNote(noteId)`. -/
def selectNote (noteId : Val) (s : State) : State :=
  { s with selectedNoteId := noteId }

/-- The callback `updateNote(noteUpdate)`; `none` is an absent argument. -/
def updateNote (noteUpdate : Option Props) (s : State) : Except JsError State := do
  if noteUpdate.isNone then
    return s
  if !(← member noteUpdate "id").truthy then
    return s
  let notes ← s.notes.mapM fun note => do
    if strictEq (note.get "id") (← member noteUpdate "id") then
      pure (spread2 (.obj note) (optVal noteUpdate))
    else
      pure note
  return { s with notes := notes }

/-- The note the `map` callback of `updateNote` returns for `note`, the update
`u` having passed the guard: `{ ...note, ...u }` when the ids are equal, else
`note`. -/
def mergeInto (u : Props) (note : Props) : Props :=
  if strictEq (note.get "id") (u.get "id") then spread2 (.obj note) (.obj u) else note

/-- The callback `deleteNote(noteId)`: the updater filters the notes, and the
selection is cleared when the `selectedNoteId` of the closure (the committed
one) is `noteId`. -/
def deleteNote (noteId : Val) (s : State) : State :=
  { notes := s.notes.filter (fun note => !strictEq (note.get "id") noteId),
    selectedNoteId := if strictEq s.selectedNoteId noteId then .null else s.selectedNoteId }

end NoteManager

/-- One call made by the user interface on the note collection. -/
inductive Op where
  | add (uuid : String) (position templateId : Val)
  | delete (noteId : Val)
  deriving DecidableEq

namespace Op

/-- Whether the call is an `addNote`. -/
def isAdd : Op → Bool
  | .add _ _ _ => true
  | .delete _ => false

/-- The state after one call. -/
def apply (templates : List Props) (op : Op) (s : NoteManager.State) : NoteManager.State :=
  match op with
  | .add uuid position templateId =>
    (NoteManager.addNote templates uuid position templateId s).2
  | .delete noteId => NoteManager.deleteNote noteId s

end Op

/-- The state after a sequence of calls, each one made on the state the
previous one committed. -/
def run (templates : List Props) (ops : List Op) (s : NoteManager.State) : NoteManager.State :=
  ops.foldl (fun acc op => op.apply templates acc) s

/-- Every note has a numeric `zIndex` that is at most the number of notes. -/
def ZBounded (s : NoteManager.State) : Prop :=
  ∀ n ∈ s.notes, ∃ z : Int, n.get "zIndex" = .num z ∧ z ≤ (s.notes.length : Int)

/-! ## TemplateManager -/

/-- The method `Array.prototype.findIndex`; `none` stands for `-1`. -/
def findIndex {α : Type} (p : α → Bool) : List α → Option Nat
  | [] => none
  | x :: xs => if p x then some 0 else (findIndex p xs).map (· + 1)

namespace TemplateManager

/-- The callback `registerTemplate(template)` on the `templates` state of the
`TemplateManager` component; `none` is an absent argument.  Gives the value
returned and the template list after the updater has run. -/
def registerTemplate (template : Option Props) (templates : List Props) :
    Bool × List Props :=
  match template with
  | none => (false, templates)
  | some t =>
    if !(t.get "id").truthy then (false, templates)
    else
      match findIndex (fun x => strictEq (x.get "id") (t.get "id")) templates with
      | some existingIndex =>
        (true, templates.modify (fun old => spread2 (.obj old) (.obj t)) existingIndex)
      | none => (true, templates ++ [t])

/-- The callback `removeTemplate(templateId)`: the list the updater returns. -/
def removeTemplate (templateId : Val) (templates : List Props) : List Props :=
  templates.filter (fun template => !strictEq (template.get "id") templateId)

/-- The callback `getTemplate(templateId)`, on the committed template list:
`templates.find(...) || null`. -/
def getTemplate (templateId : Val) (templates : List Props) : Val :=
  (optVal (templates.find? (fun template => strictEq (template.get "id") templateId))).or .null

end TemplateManager

/-! ## TemplateRegistry -/

/-- The statement `delete obj[k]`: the object without the property `k`. -/
def Props.delete (k : String) : Props → Props
  | .nil => .nil
  | .cons key value rest =>
    if key == k then Props.delete k rest else .cons key value (Props.delete k rest)

/-- The members every object created by an object literal inherits from
`Object.prototype`, as a table from name to value.  The functions are opaque
references; `__proto__` reads as the prototype itself, an object without
enumerable properties. -/
def inheritedMembers : Props :=
  Props.ofList
    [ ("constructor", .func 100), ("__defineGetter__", .func 101),
      ("__defineSetter__", .func 102), ("hasOwnProperty", .func 103),
      ("__lookupGetter__", .func 104), ("__lookupSetter__", .func 105),
      ("isPrototypeOf", .func 106), ("propertyIsEnumerable", .func 107),
      ("toString", .func 108), ("valueOf", .func 109), ("toLocaleString", .func 110),
      ("__proto__", .obj .nil) ]

/-- Property read `obj[k]` with a computed key on an object created by an
object literal: the own property when there is one, else the inherited member
of that name, else `undefined`. -/
def Props.lookup (k : String) (p : Props) : Val :=
  if p.has k then p.get k else inheritedMembers.get k

/-- Property read `v[k]` with a computed key on any value: it throws on
`undefined` and `null`, and reads an object as `Props.lookup` does.  For a
primitive the members its own wrapper adds are not modelled. -/
def Val.lookup (v : Val) (k : String) : Except JsError Val :=
  match v with
  | .undefined => .error (.typeError ("Cannot read properties of undefined (reading " ++ k ++ ")"))
  | .null => .error (.typeError ("Cannot read properties of null (reading " ++ k ++ ")"))
  | .obj p => .ok (p.lookup k)
  | _ => .ok (if v.ownProps.has k then v.ownProps.get k else inheritedMembers.get k)

namespace TemplateRegistry

/-- The function `getTemplateById(id)` on the module-level `templateMap`, the
object `{}` keyed by template id: `templateMap[id] || null`. -/
def getTemplateById (id : String) (templateMap : Props) : Val :=
  (templateMap.lookup id).or .null

/-- The function `removeTemplate(id)`: the value returned and the
`templateMap` after the call. -/
def removeTemplate (id : String) (templateMap : Props) : Bool × Props :=
  if !(templateMap.lookup id).truthy then (false, templateMap)
  else (true, templateMap.delete id)

end TemplateRegistry

/-! ## CustomTemplateRenderer -/

/-- Property read `v.k` on a value that is neither `undefined` nor `null`: an
own property of an object (or an index of a string), `undefined` otherwise.
It is used for the fixed property names of the source, none of which is the
name of an inherited member; the length of a string is not modelled. -/
def Val.prop (v : Val) (k : String) : Val := v.ownProps.get k

/-- The size object `{ width, height }` of a resize gesture. -/
def sizeVal (width height : Int) : Val :=
  .obj (Props.ofList [("width", .num width), ("height", .num height)])

/-- The call `f(...args)`: `call ref args` is what the function with
reference `ref` returns (or throws) on `args`; calling a value that is not a
function throws. -/
def callVal (call : Nat → List Val → Except JsError Val) (f : Val) (args : List Val) :
    Except JsError Val :=
  match f with
  | .func ref => call ref args
  | _ => .error (.typeError "not a function")

namespace Resizable

/-- Modelled from the spec: the `Resizable` component of the resize gesture
library, which is not in the source tree.  Given `minConstraints` and
`maxConstraints` it bounds the size of the gesture to that envelope before it
reports it to `onResizeStop`. -/
def reportedSize (minConstraints maxConstraints : Int × Int) (width height : Int) : Val :=
  sizeVal (min (max width minConstraints.1) maxConstraints.1)
    (min (max height minConstraints.2) maxConstraints.2)

end Resizable

namespace CustomTemplateRenderer

/-- The object `behaviors` of the component: the four defaults, then
`...template.behaviors`, then `...note.behaviors`. -/
def behaviors (template note : Props) : Props :=
  ((Props.ofList
      [ ("draggable", .bool true), ("resizable", .bool true),
        ("closable", .bool true), ("editable", .bool true) ]).assign
    (template.get "behaviors").ownProps).assign (note.get "behaviors").ownProps

/-- The update `{ id: note.id, size }` given to `onUpdate`. -/
def sizeUpdate (note : Props) (size : Val) : Props :=
  Props.ofList [("id", note.get "id"), ("size", size)]

/-- The handler `handleResizeStop(e, { size })`; `data` is the second
argument.  Gives the updates passed to `onUpdate`, in order, or the error
thrown by the template's handler. -/
def handleResizeStop (call : Nat → List Val → Except JsError Val) (template note : Props)
    (e : Val) (data : Props) : Except JsError (List Props) :=
  let size := data.get "size"
  let handlers := template.get "handlers"
  if handlers.truthy && (handlers.prop "onResizeEnd").truthy then
    match callVal call (handlers.prop "onResizeEnd")
        [e, .obj (Props.ofList [("size", size)]), .obj note] with
    | .error err => .error err
    | .ok processedSize =>
      .ok [sizeUpdate note (if processedSize.truthy then processedSize else size)]
  else
    .ok [sizeUpdate note size]

end CustomTemplateRenderer

/-! ## Resize handlers of the templates -/

namespace NoteTemplate

/-- The default `handlers.onResizeEnd` of `NoteTemplate` (BaseTemplate.js) on
a numeric size `{ width, height }`; it reads nothing else of its arguments. -/
def onResizeEnd (width height : Int) : Val :=
  let maxWidth : Int := 600
  let maxHeight : Int := 600
  let minWidth : Int := 100
  let minHeight : Int := 100
  let constrainedWidth := min (max width minWidth) maxWidth
  let constrainedHeight := min (max height minHeight) maxHeight
  if constrainedWidth ≠ width ∨ constrainedHeight ≠ height then
    sizeVal constrainedWidth constrainedHeight
  else .null

end NoteTemplate

namespace CodeNoteTemplate

/-- The `handlers.onResizeEnd` of the code-note template on a numeric size. -/
def onResizeEnd (width height : Int) : Val :=
  let maxWidth : Int := 800
  let maxHeight : Int := 800
  let minWidth : Int := 150
  let minHeight : Int := 100
  sizeVal (min (max width minWidth) maxWidth) (min (max height minHeight) maxHeight)

end CodeNoteTemplate

namespace TaskListTemplate

/-- The `handlers.onResizeEnd` of the task-list template on a numeric size. -/
def onResizeEnd (width height : Int) : Val :=
  let maxWidth : Int := 500
  let maxHeight : Int := 600
  let minWidth : Int := 150
  let minHeight : Int := 100
  sizeVal (min (max width minWidth) maxWidth) (min (max height minHeight) maxHeight)

end TaskListTemplate

/-! ## NoteTemplate (BaseTemplate.js) -/

/-- What the JavaScript host supplies to the methods of `NoteTemplate`: the
clock, and the built-in conversions on values the model leaves open. -/
structure Host where
  /-- The value of `Date.now()`. -/
  now : Int
  /-- The first `new Date().toISOString()` of a call. -/
  isoCreated : String
  /-- The second `new Date().toISOString()` of a call. -/
  isoUpdated : String
  /-- The string conversion of a value that is not a string. -/
  toStr : Val → String
  /-- The result of `a + b` when the operands are not both numbers. -/
  addOther : Val → Val → Val
  /-- The result of `JSON.stringify(v, null, 2)`. -/
  jsonStringify : Val → String

namespace Host

/-- A value interpolated in a template literal. -/
def str (host : Host) : Val → String
  | .str s => s
  | v => host.toStr v

/-- The operator `a + b`. -/
def add (host : Host) : Val → Val → Val
  | .num a, .num b => .num (a + b)
  | a, b => host.addOther a b

end Host

/-- Member access `v.k` on any value: reading a property of `undefined` or
`null` throws. -/
def Val.member (v : Val) (k : String) : Except JsError Val :=
  match v with
  | .undefined => .error (.typeError ("Cannot read properties of undefined (reading " ++ k ++ ")"))
  | .null => .error (.typeError ("Cannot read properties of null (reading " ++ k ++ ")"))
  | _ => .ok (v.prop k)

/-- The empty array `[]`, as the object of its elements keyed by index. -/
def emptyArray : Val := .obj .nil

namespace NoteTemplate

/-- The method `createNoteInstance(id, position, options)` of the template
instance `self`; `options` is the object given, `{}` by default. -/
def createNoteInstance (host : Host) (self : Props) (id position : Val) (options : Props) :
    Props :=
  let metadata := (options.get "metadata").or (.obj .nil)
  let content := (options.get "content").or (self.get "defaultContent")
  let size := (options.get "size").or (.obj (spread (self.get "defaultSize")))
  let currentTheme := (options.get "theme").or (.str "light")
  Props.ofList
    [ ("id", id.or (.str ("note-" ++ toString host.now))),
      ("templateId", self.get "id"),
      ("position", position.or (.obj (Props.ofList [("x", .num 100), ("y", .num 100)]))),
      ("size", size),
      ("content", content),
      ("customControls", .obj (spread (self.get "customControls"))),
      ("hasCanvasComponent", .bool (self.get "canvasComponent").truthy),
      ("behaviors", .obj (spread (self.get "behaviors"))),
      ("styles", .obj (spread (self.get "styles"))),
      ("metadata", .obj (spread metadata)),
      ("theme", currentTheme),
      ("isLocked", (options.get "isLocked").or (.bool false)),
      ("isMinimized", (options.get "isMinimized").or (.bool false)),
      ("history", (options.get "history").or
        (.obj (Props.ofList [("past", emptyArray), ("future", emptyArray)]))),
      ("createdAt", .str host.isoCreated),
      ("updatedAt", .str host.isoUpdated) ]

/-- The method `exportNote(note, format)`; `format` is `'json'` when not
given. -/
def exportNote (host : Host) (self note : Props) (format : Val) : String :=
  let format := if format = .undefined then Val.str "json" else format
  if strictEq format (.str "json") then host.jsonStringify (.obj note)
  else if strictEq format (.str "markdown") then
    "# " ++ host.str (self.get "name") ++ "\n\n" ++ host.str (note.get "content")
  else if strictEq format (.str "html") then
    "<div class=\"note\">\n  <h2>" ++ host.str (self.get "name") ++ "</h2>\n  <div>" ++
      host.str (note.get "content") ++ "</div>\n</div>"
  else host.jsonStringify (.obj note)

/-- The method `duplicateNote(note)`. -/
def duplicateNote (host : Host) (self note : Props) : Except JsError Props := do
  let x ← (note.get "position").member "x"
  let y ← (note.get "position").member "y"
  let offsetPosition := Props.ofList [("x", host.add x (.num 20)), ("y", host.add y (.num 20))]
  return createNoteInstance host self .null (.obj offsetPosition)
    (Props.ofList
      [ ("content", note.get "content"),
        ("size", .obj (spread (note.get "size"))),
        ("metadata", .obj (spread (note.get "metadata"))),
        ("theme", note.get "theme") ])

end NoteTemplate

/-! ## NoteTemplate: constructor and themes -/

/-- A parameter with a default value: the default applies when the argument is
`undefined`. -/
def orDefault (v d : Val) : Val := if v = .undefined then d else v

namespace NoteTemplate

/-- The reference of the closure the constructor creates for the default
`handlers.onDragEnd`. -/
def defaultOnDragEnd : Nat := 0

/-- The reference of the closure the constructor creates for the default
`handlers.onResizeEnd` (its effect on a numeric size is `onResizeEnd`). -/
def defaultOnResizeEnd : Nat := 1

/-- The default `light` palette. -/
def lightTheme : Props :=
  Props.ofList
    [ ("backgroundColor", .str "#ffffff"), ("textColor", .str "#333333"),
      ("borderColor", .str "#dddddd"), ("headerColor", .str "#f5f5f5"),
      ("accentColor", .str "#4a90e2") ]

/-- The default `dark` palette. -/
def darkTheme : Props :=
  Props.ofList
    [ ("backgroundColor", .str "#2d2d2d"), ("textColor", .str "#f8f8f2"),
      ("borderColor", .str "#555555"), ("headerColor", .str "#383838"),
      ("accentColor", .str "#6272a4") ]

/-- The properties of `this.themes` written before `...themes`. -/
def defaultThemes : Props :=
  Props.ofList [("light", .obj lightTheme), ("dark", .obj darkTheme)]

/-- An animation `{ type, duration }`. -/
def animation (type : String) (duration : Int) : Val :=
  .obj (Props.ofList [("type", .str type), ("duration", .num duration)])

/-- The properties of `this.animations` written before `...animations`. -/
def defaultAnimations : Props :=
  Props.ofList
    [ ("create", animation "fade-in" 300), ("delete", animation "fade-out" 300),
      ("minimize", animation "slide-up" 200), ("maximize", animation "slide-down" 200) ]

/-- The properties of `this.accessibility` written before `...accessibility`. -/
def defaultAccessibility : Props :=
  Props.ofList
    [ ("ariaLabels", .obj (Props.ofList
        [ ("close", .str "Close note"), ("minimize", .str "Minimize note"),
          ("maximize", .str "Maximize note"), ("resize", .str "Resize note") ])),
      ("keyboardShortcuts", .obj (Props.ofList
        [ ("close", .str "Escape"), ("save", .str "Ctrl+S"), ("undo", .str "Ctrl+Z") ])),
      ("highContrast", .bool false),
      ("textZoom", .num 100) ]

/-- The properties of `this.behaviors` written before `...behaviors`. -/
def defaultBehaviors : Props :=
  Props.ofList
    [ ("draggable", .bool true), ("resizable", .bool true), ("deletable", .bool true),
      ("minimizable", .bool true), ("canCreateNotes", .bool false), ("lockable", .bool true),
      ("exportable", .bool true), ("duplicatable", .bool true), ("themeable", .bool true),
      ("undoable", .bool false) ]

/-- The properties of `this.handlers` written before `...handlers`. -/
def defaultHandlers : Props :=
  Props.ofList
    [ ("onDragStart", .null), ("onDrag", .null), ("onDragEnd", .func defaultOnDragEnd),
      ("onResizeStart", .null), ("onResize", .null), ("onResizeEnd", .func defaultOnResizeEnd),
      ("onDelete", .null), ("onSelect", .null), ("onDeselect", .null), ("onMinimize", .null),
      ("onMaximize", .null), ("onContentChange", .null), ("onExport", .null),
      ("onDuplicate", .null), ("onThemeChange", .null), ("onLock", .null), ("onUnlock", .null),
      ("onUndo", .null), ("onRedo", .null) ]

/-- The constructor `new NoteTemplate(id, name, description, defaultSize,
defaultContent, component, customControls, canvasComponent, behaviors,
handlers, styles, themes, animations, accessibility)`: the instance it
builds.  An argument not given is `undefined`. -/
def new (id name description defaultSize defaultContent component customControls
    canvasComponent behaviors handlers styles themes animations accessibility : Val) : Props :=
  let component := orDefault component .null
  let customControls := orDefault customControls (.obj .nil)
  let canvasComponent := orDefault canvasComponent .null
  let behaviors := orDefault behaviors (.obj .nil)
  let handlers := orDefault handlers (.obj .nil)
  let styles := orDefault styles (.obj .nil)
  let themes := orDefault themes (.obj .nil)
  let animations := orDefault animations (.obj .nil)
  let accessibility := orDefault accessibility (.obj .nil)
  Props.ofList
    [ ("id", id),
      ("name", name),
      ("description", description),
      ("defaultSize", defaultSize.or (sizeVal 250 150)),
      ("defaultContent", defaultContent.or (.str "")),
      ("component", component),
      ("canvasComponent", canvasComponent),
      ("customControls", customControls),
      ("styles", styles),
      ("themes", .obj (defaultThemes.assign themes.ownProps)),
      ("animations", .obj (defaultAnimations.assign animations.ownProps)),
      ("accessibility", .obj (defaultAccessibility.assign accessibility.ownProps)),
      ("behaviors", .obj (defaultBehaviors.assign behaviors.ownProps)),
      ("handlers", .obj (defaultHandlers.assign handlers.ownProps)) ]

/-- The method `getThemeStyles(themeName)`; `none` is an argument not given,
for which the name is `'light'`. -/
def getThemeStyles (self : Props) (themeName : Option String) : Except JsError Val := do
  let themeName := themeName.getD "light"
  let styles ← (self.get "themes").lookup themeName
  if styles.truthy then return styles
  (self.get "themes").member "light"

end NoteTemplate

/-! ## templateHelper.js -/

/-- The default value of the `behaviors` parameter of `createTemplate`. -/
def createTemplateBehaviors : Val :=
  .obj (Props.ofList
    [ ("draggable", .bool true), ("resizable", .bool true),
      ("editable", .bool true), ("closable", .bool true) ])

/-- The function `createTemplate(config)`: each destructured parameter takes
its default when the property is `undefined`.  `applyToRef` is the reference of
the closure `applyTo` the call creates. -/
def createTemplate (applyToRef : Nat) (config : Props) : Props :=
  let id := config.get "id"
  let name := config.get "name"
  let renderer := config.get "renderer"
  let behaviors := orDefault (config.get "behaviors") createTemplateBehaviors
  let defaultSize := orDefault (config.get "defaultSize") (sizeVal 250 150)
  let defaultContent := orDefault (config.get "defaultContent") (.str "")
  let customControls := orDefault (config.get "customControls") (.obj .nil)
  let handlers := orDefault (config.get "handlers") (.obj .nil)
  let styles := orDefault (config.get "styles") (.obj .nil)
  Props.ofList
    [ ("id", id), ("name", name), ("renderer", renderer), ("behaviors", behaviors),
      ("defaultSize", defaultSize), ("defaultContent", defaultContent),
      ("customControls", customControls), ("handlers", handlers), ("styles", styles),
      ("applyTo", .func applyToRef) ]

/-- The closure `applyTo(note)` of the template `template` that
`createTemplate` returned. -/
def applyTo (template note : Props) : Props :=
  (((((spread (.obj note)).set "templateId" (template.get "id")).set "behaviors"
      (.obj (spread (template.get "behaviors")))).set "customControls"
      (.obj (spread (template.get "customControls")))).set "size"
      ((note.get "size").or (template.get "defaultSize"))).set "content"
      ((note.get "content").or (template.get "defaultContent"))

/-! ## Browser storage and the persistence effects of NoteManager -/

/-- The browser's `localStorage`: the stored strings, and whether a write is
accepted (`setItem` throws when it is not, as on a full quota). -/
structure Storage where
  items : List (String × String)
  writable : Bool
  deriving DecidableEq

namespace Storage

/-- The call `localStorage.getItem(key)`; `none` is `null`. -/
def getItem (key : String) (st : Storage) : Option String :=
  st.items.lookup key

/-- The call `localStorage.setItem(key, value)`. -/
def setItem (key value : String) (st : Storage) : Except JsError Storage :=
  if st.writable then
    .ok { st with items := (key, value) :: st.items.filter (fun kv => kv.1 != key) }
  else .error (.typeError "QuotaExceededError")

end Storage

namespace NoteManager

/-- The part of the component the persistence effects read and write: the
`notes` state, the ref `initialLoadDone` and the browser storage. -/
structure Persist where
  notes : List Props
  initialLoadDone : Bool
  storage : Storage

/-- The effect that loads the saved notes on mount.  `parse` is `JSON.parse`
on a stored string. -/
def loadEffect (parse : String → Except JsError (List Props)) (initialNotes : List Props)
    (p : Persist) : Persist :=
  if !p.initialLoadDone then
    match p.storage.getItem "canvasNotes" with
    | some savedNotes =>
      if savedNotes != "" then
        match parse savedNotes with
        | .ok notes => { p with notes := notes, initialLoadDone := true }
        | .error _ =>
          { p with
            notes := if initialNotes.length > 0 then initialNotes else p.notes,
            initialLoadDone := true }
      else
        { p with
          notes := if initialNotes.length > 0 then initialNotes else p.notes,
          initialLoadDone := true }
    | none =>
      { p with
        notes := if initialNotes.length > 0 then initialNotes else p.notes,
        initialLoadDone := true }
  else p

/-- The effect that runs whenever `notes` has changed.  `stringify` is
`JSON.stringify` on the note collection. -/
def saveEffect (stringify : List Props → String) (p : Persist) : Persist :=
  if p.initialLoadDone && decide (p.notes.length > 0) then
    match p.storage.setItem "canvasNotes" (stringify p.notes) with
    | .ok storage => { p with storage := storage }
    | .error _ => p
  else p

/-- A change of the note collection to `notes`, followed by the effect it
triggers. -/
def changeNotes (stringify : List Props → String) (notes : List Props) (p : Persist) :
    Persist :=
  saveEffect stringify { p with notes := notes }

end NoteManager

/-! ## NoteTemplates.js: custom templates -/

namespace NoteTemplates

/-- The function `saveCustomTemplates(customTemplates)`: a failed write is
logged and leaves the storage as it was. -/
def saveCustomTemplates (stringify : List Props → String) (customTemplates : List Props)
    (storage : Storage) : Storage :=
  match storage.setItem "customTemplates" (stringify customTemplates) with
  | .ok st => st
  | .error _ => storage

/-- The function `registerCustomTemplate(template)` on the module-level array
`customTemplates`: the value returned, the array and the storage after the
call. -/
def registerCustomTemplate (stringify : List Props → String) (template : Props)
    (customTemplates : List Props) (storage : Storage) : Bool × List Props × Storage :=
  if customTemplates.any (fun t => strictEq (t.get "id") (template.get "id")) then
    (false, customTemplates, storage)
  else
    (true, customTemplates ++ [template],
      saveCustomTemplates stringify (customTemplates ++ [template]) storage)

end NoteTemplates

/-! ## TemplateEditor -/

/-- The message of an error (`err.message`). -/
def JsError.message : JsError → String
  | .typeError message => message

namespace TemplateEditor

/-- The state of the editor that `handleSave` reads, and its `error` state. -/
structure State where
  id : Val
  name : Val
  description : Val
  width : Val
  height : Val
  content : Val
  isAdvancedMode : Bool
  reactComponentCode : Val
  error : Val

/-- The props `onSave` and `onClose` of the editor: whether `onSave` is given,
and the error each callback throws, if it throws. -/
structure Callbacks where
  onSaveGiven : Bool
  onSaveThrows : Option JsError
  onCloseThrows : Option JsError

/-- What a click has done: the module-level `customTemplates` and the storage
after it, the calls made to `onSave` (with their two arguments) and to
`onClose`, and the `error` state. -/
structure Outcome where
  customTemplates : List Props
  storage : Storage
  onSaveCalls : List (Props × Val)
  onCloseCalls : Nat
  error : Val

/-- The template `handleSave` builds from the state of the editor.  `parseInt`
is the built-in of that name. -/
def newTemplate (parseInt : Val → Val) (s : State) : Props :=
  let defaultSize :=
    Val.obj (Props.ofList [("width", parseInt s.width), ("height", parseInt s.height)])
  if s.isAdvancedMode then
    ((NoteTemplate.new s.id s.name s.description defaultSize
        (.str "Loading advanced component...") .null (.obj .nil) .null
        (.obj (Props.ofList [("draggable", .bool true), ("resizable", .bool true)]))
        .undefined .undefined .undefined .undefined .undefined).set
      "reactCode" s.reactComponentCode).set "isAdvancedTemplate" (.bool true)
  else
    NoteTemplate.new s.id s.name s.description defaultSize s.content
      .undefined .undefined .undefined .undefined .undefined .undefined .undefined
      .undefined .undefined

/-- The state `error` after the `catch` of `handleSave`. -/
def saveError (err : JsError) : Val := .str ("Error saving template: " ++ err.message)

/-- The handler `handleSave()` of the button "Save Template". -/
def handleSave (parseInt : Val → Val) (stringify : List Props → String) (cb : Callbacks)
    (s : State) (customTemplates : List Props) (storage : Storage) : Outcome :=
  let template := newTemplate parseInt s
  let registered := NoteTemplates.registerCustomTemplate stringify template customTemplates
    storage
  let updatedTemplates := Val.bool registered.1
  let afterRegister : Outcome :=
    { customTemplates := registered.2.1, storage := registered.2.2,
      onSaveCalls := [], onCloseCalls := 0, error := s.error }
  let afterSave : Except JsError Outcome :=
    if cb.onSaveGiven then
      match cb.onSaveThrows with
      | some err =>
        .error err
      | none => .ok { afterRegister with onSaveCalls := [(template, updatedTemplates)] }
    else .ok afterRegister
  match afterSave with
  | .error err =>
    { afterRegister with
      onSaveCalls := [(template, updatedTemplates)], error := saveError err }
  | .ok o =>
    match cb.onCloseThrows with
    | some err => { o with onCloseCalls := 1, error := saveError err }
    | none => { o with onCloseCalls := 1 }

/-- The handler of the button "Cancel": it is `onClose`. -/
def handleCancel (s : State) (customTemplates : List Props) (storage : Storage) : Outcome :=
  { customTemplates := customTemplates, storage := storage,
    onSaveCalls := [], onCloseCalls := 1, error := s.error }

end TemplateEditor

/-! ## TemplateRegistry: registration -/

/-- The values `Object.values(obj)` lists, one for each key (ids are not
array indices, so the order is the order of insertion). -/
def Props.values : Props → List Val
  | .nil => []
  | .cons key value rest =>
    if Props.has key rest then Props.values rest else value :: Props.values rest

namespace TemplateRegistry

/-- The function `getAllTemplates()`. -/
def getAllTemplates (templateMap : Props) : List Val := templateMap.values

/-- The function `registerTemplate(template)`: the value returned and the
`templateMap` after the call.  `toStr` gives the property key of an id that is
not a string. -/
def registerTemplate (toStr : Val → String) (template : Option Props) (templateMap : Props) :
    Bool × Props :=
  match template with
  | none => (false, templateMap)
  | some t =>
    if !(t.get "id").truthy then (false, templateMap)
    else
      let key := match t.get "id" with
        | .str s => s
        | v => toStr v
      (true, templateMap.set key (.obj t))

end TemplateRegistry

/-! ## Canvas: context menu -/

/-- The arithmetic the value model leaves open: `a - b` and `a / b` on
operands that are not both numbers, or whose quotient is not an integer. -/
structure Arith where
  subOther : Val → Val → Val
  divOther : Val → Val → Val

namespace Arith

/-- The operator `a - b`. -/
def sub (ar : Arith) : Val → Val → Val
  | .num a, .num b => .num (a - b)
  | a, b => ar.subOther a b

/-- The operator `a / b`. -/
def div (ar : Arith) : Val → Val → Val
  | .num a, .num b =>
    if b ≠ 0 ∧ a % b = 0 then .num (a / b) else ar.divOther (.num a) (.num b)
  | a, b => ar.divOther a b

end Arith

namespace Canvas

/-- The object `{ x, y }` both menu items compute: the menu position in canvas
coordinates. -/
def canvasPoint (ar : Arith) (contextMenuPosition canvasPosition : Props) (canvasScale : Val) :
    Val :=
  .obj (Props.ofList
    [ ("x", ar.div (ar.sub (contextMenuPosition.get "x") (canvasPosition.get "x")) canvasScale),
      ("y", ar.div (ar.sub (contextMenuPosition.get "y") (canvasPosition.get "y")) canvasScale) ])

/-- The `onClick` of the menu item "Add Note": the notes state after the call
it makes to `addNote` (the prop is `NoteManager.addNote`), and the menu
position it sets. -/
def addDefaultNote (ar : Arith) (templates : List Props) (uuid : String)
    (contextMenuPosition canvasPosition : Props) (canvasScale : Val)
    (s : NoteManager.State) : NoteManager.State × Val :=
  let defaultTemplateId :=
    match templates.head? with
    | some first => first.get "id"
    | none => .null
  if defaultTemplateId.truthy then
    ((NoteManager.addNote templates uuid defaultTemplateId
      (canvasPoint ar contextMenuPosition canvasPosition canvasScale) s).2, .null)
  else (s, .null)

/-- The `onClick` of the item of `template` under "Add Specific Note". -/
def addSpecificNote (ar : Arith) (templates : List Props) (uuid : String) (template : Props)
    (contextMenuPosition canvasPosition : Props) (canvasScale : Val)
    (s : NoteManager.State) : NoteManager.State × Val :=
  ((NoteManager.addNote templates uuid (template.get "id")
    (canvasPoint ar contextMenuPosition canvasPosition canvasScale) s).2, .null)

end Canvas

/-! ## Sample data -/

namespace Sample

/-- The template `{id: "t1", name: "T1", defaultSize: {width: 300, height: 200}}`. -/
def t1 : Props :=
  Props.ofList
    [ ("id", .str "t1"), ("name", .str "T1"),
      ("defaultSize", .obj (Props.ofList [("width", .num 300), ("height", .num 200)])) ]

/-- The template `{id: "t2", name: "T2", defaultContent: "hello"}`. -/
def t2 : Props :=
  Props.ofList [("id", .str "t2"), ("name", .str "T2"), ("defaultContent", .str "hello")]

/-- The position `{x: 10, y: 20}`. -/
def pos : Val := .obj (Props.ofList [("x", .num 10), ("y", .num 20)])

/-- A manager with no note and no selection. -/
def empty : NoteManager.State := { notes := [], selectedNoteId := .null }

/-- A note `{id, content, position: {x: 10, y: 20}, size: {250, 150}, theme: "dark"}`. -/
def note (id content : String) : Props :=
  Props.ofList
    [ ("id", .str id), ("content", .str content), ("position", pos),
      ("size", NoteManager.standardSize), ("theme", .str "dark") ]

/-- Two notes `a` and `b`, with `a` selected. -/
def two : NoteManager.State :=
  { notes := [note "a" "first", note "b" "second"], selectedNoteId := .str "a" }

/-- Adds two notes. -/
def addAdd : List Op :=
  [ .add "a" pos (.str "t1"), .add "b" pos .undefined ]

/-- Adds two notes and deletes the first of them. -/
def addAddDelete : List Op :=
  [ .add "a" pos (.str "t1"), .add "b" pos (.str "t1"), .delete (.str "note-a") ]

/-- A template whose behaviors are `{resizable: false, closable: false, pinned: true}`. -/
def rigid : Props :=
  Props.ofList
    [ ("id", .str "rigid"), ("name", .str "Rigid"),
      ("behaviors", .obj (Props.ofList
        [("resizable", .bool false), ("closable", .bool false), ("pinned", .bool true)])) ]

/-- A note of the template `rigid` whose behaviors are `{closable: true}`. -/
def rigidNote : Props :=
  Props.ofList
    [ ("id", .str "n1"), ("templateId", .str "rigid"),
      ("behaviors", .obj (Props.ofList [("closable", .bool true)])) ]

/-- A template with no `handlers`. -/
def plain : Props := Props.ofList [("id", .str "plain"), ("name", .str "Plain")]

/-- A template whose `handlers.onResizeEnd` is the function with reference 7. -/
def handled : Props :=
  Props.ofList
    [ ("id", .str "handled"), ("name", .str "Handled"),
      ("handlers", .obj (Props.ofList [("onResizeEnd", .func 7)])) ]

/-- A host whose clock reads 1700000000000. -/
def host : Host :=
  { now := 1700000000000,
    isoCreated := "2023-11-14T22:13:20.000Z",
    isoUpdated := "2023-11-14T22:13:20.000Z",
    toStr := fun _ => "undefined",
    addOther := fun _ _ => .undefined,
    jsonStringify := fun _ => "" }

/-- The template instance `Text Note`, with default content. -/
def textNote : Props :=
  Props.ofList
    [ ("id", .str "text-note"), ("name", .str "Text Note"),
      ("defaultSize", .obj (Props.ofList [("width", .num 300), ("height", .num 200)])),
      ("defaultContent", .str "Add your content here...") ]

/-- A note at `{x: 50, y: 50}` with content, size, theme and metadata. -/
def placed (content : String) : Props :=
  Props.ofList
    [ ("id", .str "note-1"), ("templateId", .str "text-note"),
      ("position", .obj (Props.ofList [("x", .num 50), ("y", .num 50)])),
      ("size", .obj (Props.ofList [("width", .num 320), ("height", .num 240)])),
      ("content", .str content),
      ("metadata", .obj (Props.ofList [("language", .str "python")])),
      ("theme", .str "dark") ]

/-- A note at `{x: 50, y: 50}` with empty content and no theme. -/
def blank : Props :=
  Props.ofList
    [ ("id", .str "note-2"), ("templateId", .str "text-note"),
      ("position", .obj (Props.ofList [("x", .num 50), ("y", .num 50)])),
      ("size", .obj (Props.ofList [("width", .num 320), ("height", .num 240)])),
      ("content", .str ""),
      ("metadata", .obj .nil) ]

/-- The note `createNoteInstance()` returns under `host` for the template
`Text Note`, no id being supplied. -/
def generated : Props :=
  NoteTemplate.createNoteInstance host textNote .undefined .undefined .nil

/-- The template `new NoteTemplate("c", "Custom", "d", undefined, undefined,
...)` built with the behaviors `{resizable: false, pinned: true}`, the handlers
`{onResizeEnd: f}` (`f` the function with reference 7) and the themes
`{light: {backgroundColor: "#000000"}}`. -/
def custom : Props :=
  NoteTemplate.new (.str "c") (.str "Custom") (.str "d") .undefined .undefined .undefined
    .undefined .undefined
    (.obj (Props.ofList [("resizable", .bool false), ("pinned", .bool true)]))
    (.obj (Props.ofList [("onResizeEnd", .func 7)]))
    .undefined
    (.obj (Props.ofList [("light", .obj (Props.ofList [("backgroundColor", .str "#000000")]))]))
    .undefined .undefined

/-- A serialization of a note collection for the runs: the ids of the notes. -/
def stringify (notes : List Props) : String :=
  "[" ++ String.intercalate "," (notes.map (fun n => host.str (n.get "id"))) ++ "]"

/-- A manager after its initial load, holding the note `a`, which is also
what the storage holds. -/
def loaded : NoteManager.Persist :=
  { notes := [note "a" "first"],
    initialLoadDone := true,
    storage := { items := [("canvasNotes", stringify [note "a" "first"])], writable := true } }

/-- An editor in basic mode with the given id and name. -/
def editor (id name : String) : TemplateEditor.State :=
  { id := .str id, name := .str name, description := .str "Custom note template",
    width := .num 300, height := .num 200, content := .str "<p>hi</p>",
    isAdvancedMode := false, reactComponentCode := .str "", error := .null }

/-- The callbacks of the application: `onSave` is given and nothing throws. -/
def callbacks : TemplateEditor.Callbacks :=
  { onSaveGiven := true, onSaveThrows := none, onCloseThrows := none }

/-- A storage that holds nothing and accepts writes. -/
def storage : Storage := { items := [], writable := true }

/-- The custom template with id `custom-1` already registered. -/
def custom1 : Props :=
  TemplateEditor.newTemplate (fun v => v) (editor "custom-1" "First")

/-- An arithmetic for the runs; only integer operands occur in them. -/
def arith : Arith := { subOther := fun _ _ => .undefined, divOther := fun _ _ => .undefined }

/-- The menu position `{x: 110, y: 220}`. -/
def menu : Props := Props.ofList [("x", .num 110), ("y", .num 220)]

/-- The canvas position `{x: 10, y: 20}`. -/
def canvasPosition : Props := Props.ofList [("x", .num 10), ("y", .num 20)]

end Sample

/-! ## Properties of objects -/

namespace Props

theorem has_set (k j : String) (v : Val) :
    (p : Props) → (p.set k v).has j = (k == j || p.has j)
  | .nil => by simp [set, has]
  | .cons key value rest => by
    have ih := has_set k j v rest
    by_cases hk : key = k
    · subst hk
      by_cases hr : has key rest = true
      · simp [set, has, hr, ih]
      · by_cases hj : key = j <;> simp [set, has, hr, hj]
    · simp only [set, has, hk, ih, beq_iff_eq, if_false]
      exact Bool.or_left_comm _ _ _

theorem get_of_not_has (k : String) :
    (p : Props) → p.has k = false → p.get k = .undefined
  | .nil, _ => rfl
  | .cons key value rest, h => by
    simp only [has, Bool.or_eq_false_iff] at h
    simp [get, h.1, h.2]

theorem get_set (k j : String) (v : Val) :
    (p : Props) → (p.set k v).get j = if k = j then v else p.get j
  | .nil => by
    by_cases h : k = j <;> simp [set, get, has, h]
  | .cons key value rest => by
    have ih := get_set k j v rest
    by_cases hk : key = k
    · subst hk
      by_cases hr : has key rest = true
      · by_cases hj : key = j
        · subst hj
          simp [set, get, has, hr, ih, has_set]
        · simp [set, get, has, hr, ih, has_set, hj]
      · by_cases hj : key = j
        · subst hj
          simp [set, get, has, hr]
        · simp [set, get, has, hr, hj]
    · by_cases hj : k = j
      · subst hj
        simp [set, get, has, hk, ih, has_set]
      · simp [set, get, has, hk, ih, has_set, hj]

theorem has_assign (j : String) :
    (source target : Props) → (target.assign source).has j = (target.has j || source.has j)
  | .nil, target => by simp [assign, has]
  | .cons key value rest, target => by
    have ih := has_assign j rest (target.set key value)
    simp only [assign, ih, has_set, has]
    by_cases h1 : key = j <;> cases target.has j <;> simp [h1]

theorem get_assign (j : String) :
    (source target : Props) →
      (target.assign source).get j = if source.has j then source.get j else target.get j
  | .nil, target => by simp [assign, has]
  | .cons key value rest, target => by
    have ih := get_assign j rest (target.set key value)
    simp only [assign, ih, get_set, has, get]
    by_cases hr : has j rest = true
    · simp [hr]
    · by_cases h1 : key = j <;> simp [hr, h1]

end Props

theorem spread2_get (a b : Props) (j : String) :
    (spread2 (.obj a) (.obj b)).get j = if b.has j then b.get j else a.get j := by
  simp only [spread2, Val.ownProps, Props.get_assign]
  by_cases hb : b.has j = true
  · simp [hb]
  · by_cases ha : a.has j = true
    · simp [hb, ha]
    · simp only [hb, ha]
      simp only [Bool.not_eq_true] at ha
      simp [Props.get_of_not_has j a ha, Props.get]

theorem spread2_has (a b : Props) (j : String) :
    (spread2 (.obj a) (.obj b)).has j = (a.has j || b.has j) := by
  simp [spread2, Val.ownProps, Props.has_assign, Props.has]

/-! ## NoteManager: addNote -/

namespace NoteManager

theorem resolveTemplate_of_ne_nil (templates : List Props) (templateId : Val)
    (h : templates ≠ []) : ∃ t, resolveTemplate templates templateId = some t := by
  cases templates with
  | nil => exact absurd rfl h
  | cons t0 rest =>
    unfold resolveTemplate
    cases hf : List.find? (fun t => strictEq (t.get "id") templateId) (t0 :: rest) with
    | none => exact ⟨t0, by simp⟩
    | some t => exact ⟨t, by simp⟩

theorem resolveTemplate_nil (templateId : Val) : resolveTemplate [] templateId = none := by
  simp [resolveTemplate]

theorem addNote_of_resolve (templates : List Props) (uuid : String) (position templateId : Val)
    (s : State) (t : Props) (h : resolveTemplate templates templateId = some t) :
    addNote templates uuid position templateId s =
      (.str ("note-" ++ uuid),
        { notes := s.notes ++ [newNote t (.str ("note-" ++ uuid)) position s.notes.length],
          selectedNoteId := s.selectedNoteId }) := by
  simp [addNote, h]

theorem addNote_of_resolve_none (templates : List Props) (uuid : String)
    (position templateId : Val) (s : State) (h : resolveTemplate templates templateId = none) :
    addNote templates uuid position templateId s = (.null, s) := by
  simp [addNote, h]

theorem newNote_id (t : Props) (noteId position : Val) (n : Nat) :
    (newNote t noteId position n).get "id" = noteId := rfl

theorem newNote_templateId (t : Props) (noteId position : Val) (n : Nat) :
    (newNote t noteId position n).get "templateId" = t.get "id" := rfl

theorem newNote_position (t : Props) (noteId position : Val) (n : Nat) :
    (newNote t noteId position n).get "position" = position := rfl

theorem newNote_size (t : Props) (noteId position : Val) (n : Nat) :
    (newNote t noteId position n).get "size" =
      .obj (Props.ofList [("width", .num 250), ("height", .num 150)]) := rfl

theorem newNote_zIndex (t : Props) (noteId position : Val) (n : Nat) :
    (newNote t noteId position n).get "zIndex" = .num ((n : Int) + 1) := rfl

/-- C1: whenever `addNote` creates a note (it does not return `null`), the
note appended to the collection has size exactly `{width: 250, height: 150}`,
for every template list, hence whatever `defaultSize` the resolved template
has. -/
theorem addNote_size_standard (templates : List Props) (uuid : String)
    (position templateId : Val) (s : State)
    (h : (addNote templates uuid position templateId s).1 ≠ .null) :
    ∃ note, (addNote templates uuid position templateId s).2.notes = s.notes ++ [note] ∧
      note.get "size" = .obj (Props.ofList [("width", .num 250), ("height", .num 150)]) := by
  cases hr : resolveTemplate templates templateId with
  | none =>
    rw [addNote_of_resolve_none templates uuid position templateId s hr] at h
    exact absurd rfl h
  | some t =>
    rw [addNote_of_resolve templates uuid position templateId s t hr]
    exact ⟨_, rfl, newNote_size t _ position _⟩

/-- C2: with an empty template list `addNote` returns `null` and the state
(note collection and selection) is exactly the state before the call. -/
theorem addNote_no_templates (uuid : String) (position templateId : Val) (s : State) :
    addNote [] uuid position templateId s = (.null, s) :=
  addNote_of_resolve_none [] uuid position templateId s (resolveTemplate_nil templateId)

/-- C3: with a non-empty template list, the created note has the requested
`templateId` when some registered template has that id, and the id of the
first registered template when none has (the id was not given, or is not
registered). -/
theorem addNote_templateId (templates : List Props) (uuid : String)
    (position templateId : Val) (s : State) (h : templates ≠ []) :
    ∃ note, (addNote templates uuid position templateId s).2.notes = s.notes ++ [note] ∧
      ((∃ t ∈ templates, t.get "id" = templateId) → note.get "templateId" = templateId) ∧
      ((∀ t ∈ templates, t.get "id" ≠ templateId) →
        ∃ first, templates.head? = some first ∧ note.get "templateId" = first.get "id") := by
  obtain ⟨t, ht⟩ := resolveTemplate_of_ne_nil templates templateId h
  rw [addNote_of_resolve templates uuid position templateId s t ht]
  refine ⟨_, rfl, ?_, ?_⟩
  · rintro ⟨t1, ht1, hid⟩
    rw [newNote_templateId]
    unfold resolveTemplate at ht
    cases hf : List.find? (fun t => strictEq (t.get "id") templateId) templates with
    | none =>
      rw [List.find?_eq_none] at hf
      exact absurd (by simp [strictEq, hid]) (hf t1 ht1)
    | some t2 =>
      rw [hf] at ht
      simp only [Option.isNone_some, Bool.false_and, Bool.false_eq_true, if_false,
        Option.some.injEq] at ht
      subst ht
      have := List.find?_some hf
      simpa [strictEq] using this
  · intro hall
    rw [newNote_templateId]
    unfold resolveTemplate at ht
    have hf : List.find? (fun t => strictEq (t.get "id") templateId) templates = none := by
      rw [List.find?_eq_none]
      intro x hx
      simpa [strictEq] using hall x hx
    rw [hf] at ht
    cases templates with
    | nil => exact absurd rfl h
    | cons t0 rest =>
      simp at ht
      exact ⟨t0, rfl, by rw [ht]⟩

/-- C4: with a non-empty template list and a collection of `n` notes,
`addNote` appends exactly one note after the `n` existing ones (which stay as
they were, in order), the new note has the given position and `zIndex` `n + 1`,
and the value returned is the new note's id. -/
theorem addNote_appends (templates : List Props) (uuid : String)
    (position templateId : Val) (s : State) (h : templates ≠ []) :
    ∃ note,
      addNote templates uuid position templateId s =
        (note.get "id", { notes := s.notes ++ [note], selectedNoteId := s.selectedNoteId }) ∧
      note.get "position" = position ∧
      note.get "zIndex" = .num ((s.notes.length : Int) + 1) := by
  obtain ⟨t, ht⟩ := resolveTemplate_of_ne_nil templates templateId h
  rw [addNote_of_resolve templates uuid position templateId s t ht]
  exact ⟨_, by rw [newNote_id], newNote_position t _ position _, newNote_zIndex t _ position _⟩

/-- A run of C1 on the template `t1`, whose `defaultSize` is 300 by 200. -/
theorem addNote_size_standard_witness :
    (addNote [Sample.t1] "u" Sample.pos (.str "t1") Sample.empty).1 ≠ .null ∧
    ∃ note,
      (addNote [Sample.t1] "u" Sample.pos (.str "t1") Sample.empty).2.notes =
        Sample.empty.notes ++ [note] ∧
      note.get "size" = .obj (Props.ofList [("width", .num 250), ("height", .num 150)]) :=
  ⟨by decide, addNote_size_standard [Sample.t1] "u" Sample.pos (.str "t1") Sample.empty
    (by decide)⟩

/-- A run of C3 with the unregistered id `"zz"` on the templates `t1`, `t2`. -/
theorem addNote_templateId_witness :
    [Sample.t1, Sample.t2] ≠ [] ∧
    ∃ note,
      (addNote [Sample.t1, Sample.t2] "u" Sample.pos (.str "zz") Sample.two).2.notes =
        Sample.two.notes ++ [note] ∧
      ((∃ t ∈ [Sample.t1, Sample.t2], t.get "id" = .str "zz") →
        note.get "templateId" = .str "zz") ∧
      ((∀ t ∈ [Sample.t1, Sample.t2], t.get "id" ≠ .str "zz") →
        ∃ first, [Sample.t1, Sample.t2].head? = some first ∧
          note.get "templateId" = first.get "id") :=
  ⟨by decide, addNote_templateId [Sample.t1, Sample.t2] "u" Sample.pos (.str "zz") Sample.two
    (by decide)⟩

/-- A run of C4 on a collection of two notes. -/
theorem addNote_appends_witness :
    [Sample.t1] ≠ [] ∧
    ∃ note,
      addNote [Sample.t1] "u" Sample.pos (.str "t1") Sample.two =
        (note.get "id",
          { notes := Sample.two.notes ++ [note],
            selectedNoteId := Sample.two.selectedNoteId }) ∧
      note.get "position" = Sample.pos ∧
      note.get "zIndex" = .num ((Sample.two.notes.length : Int) + 1) :=
  ⟨by decide, addNote_appends [Sample.t1] "u" Sample.pos (.str "t1") Sample.two (by decide)⟩

end NoteManager

/-! ## zIndex over sequences of calls -/

theorem zBounded_addNote (templates : List Props) (uuid : String) (position templateId : Val)
    (s : NoteManager.State) (h : ZBounded s) :
    ZBounded (NoteManager.addNote templates uuid position templateId s).2 := by
  cases hr : NoteManager.resolveTemplate templates templateId with
  | none =>
    rw [NoteManager.addNote_of_resolve_none templates uuid position templateId s hr]
    exact h
  | some t =>
    rw [NoteManager.addNote_of_resolve templates uuid position templateId s t hr]
    intro n hn
    simp only [List.mem_append, List.mem_singleton] at hn
    simp only [List.length_append, List.length_singleton, Nat.cast_add, Nat.cast_one]
    rcases hn with hn | hn
    · obtain ⟨z, hz, hle⟩ := h n hn
      exact ⟨z, hz, by omega⟩
    · subst hn
      exact ⟨_, NoteManager.newNote_zIndex t _ position _, le_refl _⟩

theorem zBounded_run (templates : List Props) (ops : List Op)
    (hadd : ∀ op ∈ ops, op.isAdd = true) :
    ∀ s : NoteManager.State, ZBounded s → ZBounded (run templates ops s) := by
  induction ops with
  | nil => intro s h; exact h
  | cons op rest ih =>
    intro s h
    have hop : op.isAdd = true := hadd op (List.mem_cons_self _ _)
    have hrest : ∀ o ∈ rest, o.isAdd = true := fun o ho => hadd o (List.mem_cons_of_mem _ ho)
    have hstep : ZBounded (op.apply templates s) := by
      cases op with
      | add uuid position templateId => exact zBounded_addNote templates uuid position templateId s h
      | delete noteId => simp [Op.isAdd] at hop
    exact ih hrest _ hstep

/-- C5, as stated, fails: after adding two notes and deleting the first, the
collection holds one note with `zIndex` 2, and the next note created is given
`zIndex` 2 as well. -/
theorem zIndex_reused_after_delete :
    (run [Sample.t1] Sample.addAddDelete Sample.empty).notes.map
        (fun n => (n.get "id", n.get "zIndex")) = [(.str "note-b", .num 2)] ∧
    (NoteManager.addNote [Sample.t1] "c" Sample.pos (.str "t1")
        (run [Sample.t1] Sample.addAddDelete Sample.empty)).2.notes.map
        (fun n => (n.get "id", n.get "zIndex")) =
      [(.str "note-b", .num 2), (.str "note-c", .num 2)] := by
  decide

/-- C5, amended: over every sequence of `addNote` and `deleteNote` calls from
an empty collection, the note created next gets `zIndex` equal to the number
of notes plus one; when the sequence has no `deleteNote`, that is strictly
greater than the `zIndex` of every note in the collection. -/
theorem zIndex_increasing_without_delete (templates : List Props) (ops : List Op)
    (uuid : String) (position templateId selected : Val) (ht : templates ≠ []) :
    ∃ note,
      (NoteManager.addNote templates uuid position templateId
          (run templates ops { notes := [], selectedNoteId := selected })).2.notes =
        (run templates ops { notes := [], selectedNoteId := selected }).notes ++ [note] ∧
      note.get "zIndex" =
        .num (((run templates ops { notes := [], selectedNoteId := selected }).notes.length
          : Int) + 1) ∧
      ((∀ op ∈ ops, op.isAdd = true) →
        ∀ n ∈ (run templates ops { notes := [], selectedNoteId := selected }).notes,
          ∃ z : Int, n.get "zIndex" = .num z ∧
            z < ((run templates ops { notes := [], selectedNoteId := selected }).notes.length
              : Int) + 1) := by
  obtain ⟨t, hres⟩ := NoteManager.resolveTemplate_of_ne_nil templates templateId ht
  rw [NoteManager.addNote_of_resolve templates uuid position templateId _ t hres]
  refine ⟨_, rfl, NoteManager.newNote_zIndex t _ position _, ?_⟩
  intro hadd n hn
  have hinv : ZBounded (run templates ops { notes := [], selectedNoteId := selected }) :=
    zBounded_run templates ops hadd _ (by intro n hn; simp at hn)
  obtain ⟨z, hz, hle⟩ := hinv n hn
  exact ⟨z, hz, by omega⟩

/-- A run of the amended C5 after two `addNote` calls: the third note gets
`zIndex` 3, above the two notes of the collection. -/
theorem zIndex_increasing_without_delete_witness :
    [Sample.t1] ≠ [] ∧
    (∀ op ∈ Sample.addAdd, op.isAdd = true) ∧
    ∃ note,
      (NoteManager.addNote [Sample.t1] "c" Sample.pos (.str "t1")
          (run [Sample.t1] Sample.addAdd { notes := [], selectedNoteId := .null })).2.notes =
        (run [Sample.t1] Sample.addAdd { notes := [], selectedNoteId := .null }).notes
          ++ [note] ∧
      note.get "zIndex" =
        .num (((run [Sample.t1] Sample.addAdd
          { notes := [], selectedNoteId := .null }).notes.length : Int) + 1) ∧
      ((∀ op ∈ Sample.addAdd, op.isAdd = true) →
        ∀ n ∈ (run [Sample.t1] Sample.addAdd { notes := [], selectedNoteId := .null }).notes,
          ∃ z : Int, n.get "zIndex" = .num z ∧
            z < ((run [Sample.t1] Sample.addAdd
              { notes := [], selectedNoteId := .null }).notes.length : Int) + 1) :=
  ⟨by decide, by decide,
    zIndex_increasing_without_delete [Sample.t1] Sample.addAdd "c" Sample.pos (.str "t1") .null
      (by decide)⟩

/-! ## NoteManager: updateNote -/

theorem mapM_ok {ε α β : Type} (f : α → β) (l : List α) :
    l.mapM (fun x => (Except.ok (f x) : Except ε β)) = .ok (l.map f) := by
  induction l with
  | nil => rfl
  | cons x xs ih =>
    rw [List.mapM_cons, ih]
    rfl

namespace NoteManager

theorem updateNote_of_truthy (u : Props) (s : State) (h : (u.get "id").truthy = true) :
    updateNote (some u) s =
      .ok { notes := s.notes.map (mergeInto u), selectedNoteId := s.selectedNoteId } := by
  have hm : (fun note : Props =>
      (if strictEq (note.get "id") (u.get "id") = true then
        Except.ok (spread2 (.obj note) (.obj u)) else Except.ok note : Except JsError Props)) =
      fun note => Except.ok (mergeInto u note) := by
    funext note
    unfold mergeInto
    split <;> rfl
  simp only [updateNote, member, optVal, Option.isNone_some, Bool.false_eq_true, if_false,
    bind, Except.bind, pure, Except.pure, h, Bool.not_true]
  rw [hm, mapM_ok]

theorem mergeInto_of_ne (u note : Props) (h : note.get "id" ≠ u.get "id") :
    mergeInto u note = note := by
  simp [mergeInto, strictEq, h]

theorem mergeInto_of_eq (u note : Props) (h : note.get "id" = u.get "id") :
    mergeInto u note = spread2 (.obj note) (.obj u) := by
  simp [mergeInto, strictEq, h]

theorem idContent_has (id c : Val) (k : String) :
    (Props.ofList [("id", id), ("content", c)]).has k = ("id" == k || "content" == k) := by
  simp [Props.ofList, Props.has]

theorem idContent_get_id (id c : Val) :
    (Props.ofList [("id", id), ("content", c)]).get "id" = id := rfl

theorem idContent_get_content (id c : Val) :
    (Props.ofList [("id", id), ("content", c)]).get "content" = c := rfl

/-- C6: `updateNote` with an update whose id is set (truthy) is a shallow merge.
First part: for every update `u` with that id the call succeeds, the selection
and the length of the collection are kept, a note at index `i` whose id differs
is the same note at index `i` afterwards, and a note whose id matches has, for
every key, the value of `u` when `u` has the key and its previous value
otherwise.  Second part: after the updates `{id, content: a}` and then
`{id, content: b}`, a matching note has content `b` and every other field
(position, size, theme among them) as before the two calls; the other notes
are unchanged. -/
theorem updateNote_shallow_merge (s : State) (id : Val) (hid : id.truthy = true) :
    (∀ u : Props, u.get "id" = id →
      ∃ notes', updateNote (some u) s =
          .ok { notes := notes', selectedNoteId := s.selectedNoteId } ∧
        notes'.length = s.notes.length ∧
        ∀ (i : Nat) (note : Props), s.notes[i]? = some note →
          ∃ note', notes'[i]? = some note' ∧
            (note.get "id" ≠ id → note' = note) ∧
            (note.get "id" = id → ∀ k : String,
              note'.has k = (note.has k || u.has k) ∧
              note'.get k = if u.has k then u.get k else note.get k)) ∧
    (∀ a b : Val,
      ∃ s1 s2,
        updateNote (some (Props.ofList [("id", id), ("content", a)])) s = .ok s1 ∧
        updateNote (some (Props.ofList [("id", id), ("content", b)])) s1 = .ok s2 ∧
        s2.selectedNoteId = s.selectedNoteId ∧
        s2.notes.length = s.notes.length ∧
        ∀ (i : Nat) (note : Props), s.notes[i]? = some note →
          ∃ note2, s2.notes[i]? = some note2 ∧
            (note.get "id" ≠ id → note2 = note) ∧
            (note.get "id" = id →
              note2.get "content" = b ∧
              note2.get "position" = note.get "position" ∧
              note2.get "size" = note.get "size" ∧
              note2.get "theme" = note.get "theme" ∧
              ∀ k : String, k ≠ "content" → note2.get k = note.get k)) := by
  constructor
  · intro u hu
    subst hu
    refine ⟨_, updateNote_of_truthy u s hid, by simp, ?_⟩
    intro i note hi
    refine ⟨mergeInto u note, by simp [List.getElem?_map, hi], ?_, ?_⟩
    · intro hne
      exact mergeInto_of_ne u note hne
    · intro heq k
      rw [mergeInto_of_eq u note heq]
      exact ⟨spread2_has note u k, spread2_get note u k⟩
  · intro a b
    have ha : ((Props.ofList [("id", id), ("content", a)]).get "id").truthy = true := by
      rw [idContent_get_id]; exact hid
    have hb : ((Props.ofList [("id", id), ("content", b)]).get "id").truthy = true := by
      rw [idContent_get_id]; exact hid
    refine ⟨_, _, updateNote_of_truthy _ s ha, updateNote_of_truthy _ _ hb, rfl, by simp, ?_⟩
    intro i note hi
    refine ⟨mergeInto (Props.ofList [("id", id), ("content", b)])
      (mergeInto (Props.ofList [("id", id), ("content", a)]) note),
      by simp [List.getElem?_map, hi], ?_, ?_⟩
    · intro hne
      rw [mergeInto_of_ne _ note (by rw [idContent_get_id]; exact hne),
        mergeInto_of_ne _ note (by rw [idContent_get_id]; exact hne)]
    · intro heq
      have h1 : mergeInto (Props.ofList [("id", id), ("content", a)]) note =
          spread2 (.obj note) (.obj (Props.ofList [("id", id), ("content", a)])) :=
        mergeInto_of_eq _ note (by rw [idContent_get_id]; exact heq)
      have h1id : (spread2 (.obj note) (.obj (Props.ofList [("id", id), ("content", a)]))).get
          "id" = (Props.ofList [("id", id), ("content", b)]).get "id" := by
        rw [spread2_get, idContent_has, idContent_get_id, idContent_get_id]
        rfl
      rw [h1, mergeInto_of_eq _ _ h1id]
      have key : ∀ k : String, k ≠ "content" →
          (spread2 (.obj (spread2 (.obj note)
              (.obj (Props.ofList [("id", id), ("content", a)]))))
            (.obj (Props.ofList [("id", id), ("content", b)]))).get k = note.get k := by
        intro k hk
        rw [spread2_get, spread2_get, idContent_has, idContent_has]
        by_cases hki : k = "id"
        · subst hki
          simp [idContent_get_id, heq]
        · have e1 : ("id" == k) = false := by
            simp only [beq_eq_false_iff_ne, ne_eq]
            exact fun h => hki h.symm
          have e2 : ("content" == k) = false := by
            simp only [beq_eq_false_iff_ne, ne_eq]
            exact fun h => hk h.symm
          simp [e1, e2]
      refine ⟨?_, key _ (by decide), key _ (by decide), key _ (by decide), key⟩
      rw [spread2_get, idContent_has, idContent_get_content]
      rfl

/-- A run of C6 on two notes: `a` is updated twice, `b` is left alone. -/
theorem updateNote_shallow_merge_witness :
    (Val.str "a").truthy = true ∧
    ∃ s1 s2,
      updateNote (some (Props.ofList [("id", .str "a"), ("content", .str "x")])) Sample.two
        = .ok s1 ∧
      updateNote (some (Props.ofList [("id", .str "a"), ("content", .str "y")])) s1 = .ok s2 ∧
      s2.selectedNoteId = Sample.two.selectedNoteId ∧
      s2.notes.length = Sample.two.notes.length ∧
      ∀ (i : Nat) (note : Props), Sample.two.notes[i]? = some note →
        ∃ note2, s2.notes[i]? = some note2 ∧
          (note.get "id" ≠ .str "a" → note2 = note) ∧
          (note.get "id" = .str "a" →
            note2.get "content" = .str "y" ∧
            note2.get "position" = note.get "position" ∧
            note2.get "size" = note.get "size" ∧
            note2.get "theme" = note.get "theme" ∧
            ∀ k : String, k ≠ "content" → note2.get k = note.get k) :=
  ⟨by decide, (updateNote_shallow_merge Sample.two (.str "a") (by decide)).2 (.str "x") (.str "y")⟩

/-- C7: `updateNote` returns normally and leaves the state as it was when the
update is absent, when it has no id (the id is missing or falsy), and when no
note of the collection has the id of the update. -/
theorem updateNote_noop (s : State) (noteUpdate : Option Props)
    (h : noteUpdate = none ∨
      (∃ u, noteUpdate = some u ∧ (u.get "id").truthy = false) ∨
      (∃ u, noteUpdate = some u ∧ ∀ n ∈ s.notes, n.get "id" ≠ u.get "id")) :
    updateNote noteUpdate s = .ok s := by
  rcases h with h | ⟨u, h, hu⟩ | ⟨u, h, hu⟩
  · subst h
    rfl
  · subst h
    simp [updateNote, member, hu, bind, Except.bind, pure, Except.pure]
  · subst h
    by_cases ht : (u.get "id").truthy = true
    · rw [updateNote_of_truthy u s ht]
      have hmap : s.notes.map (mergeInto u) = s.notes := by
        conv_rhs => rw [← List.map_id s.notes]
        apply List.map_congr_left
        intro n hn
        exact mergeInto_of_ne u n (hu n hn)
      rw [hmap]
    · simp only [Bool.not_eq_true] at ht
      simp [updateNote, member, ht, bind, Except.bind, pure, Except.pure]

/-- A run of C7 with the update `{id: "zz", content: "x"}`, whose id no note
has. -/
theorem updateNote_noop_witness :
    (some (Props.ofList [("id", .str "zz"), ("content", .str "x")]) = none ∨
      (∃ u, some (Props.ofList [("id", .str "zz"), ("content", .str "x")]) = some u ∧
        (u.get "id").truthy = false) ∨
      (∃ u, some (Props.ofList [("id", .str "zz"), ("content", .str "x")]) = some u ∧
        ∀ n ∈ Sample.two.notes, n.get "id" ≠ u.get "id")) ∧
    updateNote (some (Props.ofList [("id", .str "zz"), ("content", .str "x")])) Sample.two =
      .ok Sample.two :=
  ⟨Or.inr (Or.inr ⟨_, rfl, by decide⟩),
    updateNote_noop Sample.two _ (Or.inr (Or.inr ⟨_, rfl, by decide⟩))⟩

/-! ## NoteManager: deleteNote -/

/-- C8: after `deleteNote(id)` no note of the collection has that id, the
collection is a sublist of the previous one (what remains is unchanged and in
the same relative order), and every note with another id occurs in it as many
times as before. -/
theorem deleteNote_removes (noteId : Val) (s : State) :
    (∀ n ∈ (deleteNote noteId s).notes, n.get "id" ≠ noteId) ∧
    (deleteNote noteId s).notes.Sublist s.notes ∧
    (∀ n : Props, n.get "id" ≠ noteId →
      (deleteNote noteId s).notes.count n = s.notes.count n) := by
  refine ⟨?_, List.filter_sublist _, ?_⟩
  · intro n hn
    simp only [deleteNote, List.mem_filter, strictEq, Bool.not_eq_true', decide_eq_false_iff_not]
      at hn
    exact hn.2
  · intro n hn
    simp only [deleteNote]
    apply List.count_filter
    simp [strictEq, hn]

/-- A run of C8: deleting `a` from the notes `a`, `b` leaves exactly `b`. -/
theorem deleteNote_removes_witness :
    (deleteNote (.str "a") Sample.two).notes = [Sample.note "b" "second"] ∧
    ((∀ n ∈ (deleteNote (.str "a") Sample.two).notes, n.get "id" ≠ .str "a") ∧
      (deleteNote (.str "a") Sample.two).notes.Sublist Sample.two.notes ∧
      (∀ n : Props, n.get "id" ≠ .str "a" →
        (deleteNote (.str "a") Sample.two).notes.count n = Sample.two.notes.count n)) :=
  ⟨by decide, deleteNote_removes (.str "a") Sample.two⟩

/-- C9: after `deleteNote(id)` the selection is `null` when `id` was the
selected note id and is the previous selection otherwise; in particular,
deleting a note right after selecting it leaves no selection. -/
theorem deleteNote_selection (noteId : Val) (s : State) :
    (s.selectedNoteId = noteId → (deleteNote noteId s).selectedNoteId = .null) ∧
    (s.selectedNoteId ≠ noteId → (deleteNote noteId s).selectedNoteId = s.selectedNoteId) ∧
    (deleteNote noteId (selectNote noteId s)).selectedNoteId = .null := by
  refine ⟨?_, ?_, ?_⟩
  · intro h
    simp [deleteNote, strictEq, h]
  · intro h
    simp [deleteNote, strictEq, h]
  · simp [deleteNote, selectNote, strictEq]

/-- A run of C9: with `a` selected, deleting `a` clears the selection and
deleting `b` keeps it. -/
theorem deleteNote_selection_witness :
    (deleteNote (.str "a") Sample.two).selectedNoteId = .null ∧
    (deleteNote (.str "b") Sample.two).selectedNoteId = .str "a" :=
  ⟨(deleteNote_selection (.str "a") Sample.two).1 rfl,
    (deleteNote_selection (.str "b") Sample.two).2.1 (by decide)⟩

end NoteManager

/-! ## TemplateManager: registerTemplate -/

namespace TemplateManager

/-- C10: `registerTemplate` returns `false` and leaves the template list as it
was when the template is absent or has no id (the id is missing or falsy), and
returns `true` for every template that has an id. -/
theorem registerTemplate_result (templates : List Props) :
    registerTemplate none templates = (false, templates) ∧
    (∀ t : Props, (t.get "id").truthy = false →
      registerTemplate (some t) templates = (false, templates)) ∧
    (∀ t : Props, (t.get "id").truthy = true →
      (registerTemplate (some t) templates).1 = true) := by
  refine ⟨rfl, ?_, ?_⟩
  · intro t h
    simp [registerTemplate, h]
  · intro t h
    simp only [registerTemplate, h, Bool.not_true, Bool.false_eq_true, if_false]
    cases findIndex (fun x => strictEq (x.get "id") (t.get "id")) templates <;> rfl

/-- A run of C10: a template without id is refused, the list unchanged; the
template `t2` is accepted, both as a new entry and when already registered. -/
theorem registerTemplate_result_witness :
    registerTemplate (some (Props.ofList [("name", .str "T")])) [Sample.t1] =
      (false, [Sample.t1]) ∧
    (registerTemplate (some Sample.t2) [Sample.t1]).1 = true ∧
    (registerTemplate (some Sample.t2) [Sample.t1, Sample.t2]).1 = true :=
  ⟨(registerTemplate_result [Sample.t1]).2.1 _ (by decide),
    (registerTemplate_result [Sample.t1]).2.2 _ (by decide),
    (registerTemplate_result [Sample.t1, Sample.t2]).2.2 _ (by decide)⟩

end TemplateManager

/-! ## TemplateManager: lookup after registration -/

theorem truthy_has (p : Props) (k : String) (h : (p.get k).truthy = true) : p.has k = true := by
  by_cases hk : p.has k = true
  · exact hk
  · simp only [Bool.not_eq_true] at hk
    rw [Props.get_of_not_has k p hk] at h
    exact absurd h (by decide)

theorem findIndex_none {α : Type} (p : α → Bool) :
    ∀ l : List α, findIndex p l = none → ∀ x ∈ l, p x = false := by
  intro l
  induction l with
  | nil => intro _ x hx; simp at hx
  | cons a rest ih =>
    intro h x hx
    by_cases ha : p a = true
    · simp [findIndex, ha] at h
    · simp only [Bool.not_eq_true] at ha
      simp only [findIndex, ha, Bool.false_eq_true, if_false, Option.map_eq_none'] at h
      rcases List.mem_cons.mp hx with hx | hx
      · rw [hx]; exact ha
      · exact ih h x hx

theorem findIndex_some {α : Type} (p : α → Bool) :
    ∀ (l : List α) (i : Nat), findIndex p l = some i →
      ∃ x, l[i]? = some x ∧ p x = true ∧
        ∀ (j : Nat) (y : α), j < i → l[j]? = some y → p y = false := by
  intro l
  induction l with
  | nil => intro i h; simp [findIndex] at h
  | cons a rest ih =>
    intro i h
    by_cases ha : p a = true
    · simp only [findIndex, ha, if_true, Option.some.injEq] at h
      subst h
      exact ⟨a, by simp, ha, fun j y hj _ => absurd hj (Nat.not_lt_zero j)⟩
    · simp only [Bool.not_eq_true] at ha
      simp only [findIndex, ha, Bool.false_eq_true, if_false, Option.map_eq_some'] at h
      obtain ⟨i0, hi0, rfl⟩ := h
      obtain ⟨x, hx, hpx, hbefore⟩ := ih i0 hi0
      refine ⟨x, by simpa using hx, hpx, ?_⟩
      intro j y hj hy
      cases j with
      | zero =>
        simp only [List.getElem?_cons_zero, Option.some.injEq] at hy
        rw [← hy]; exact ha
      | succ j0 =>
        simp only [List.getElem?_cons_succ] at hy
        exact hbefore j0 y (by omega) hy

theorem find?_modify_of_findIndex {α : Type} (p : α → Bool) (f : α → α)
    (hf : ∀ x, p x = true → p (f x) = true) :
    ∀ (l : List α) (i : Nat), findIndex p l = some i →
      ∃ x, l[i]? = some x ∧ p x = true ∧ List.find? p (l.modify f i) = some (f x) := by
  intro l
  induction l with
  | nil => intro i h; simp [findIndex] at h
  | cons a rest ih =>
    intro i h
    by_cases ha : p a = true
    · simp only [findIndex, ha, if_true, Option.some.injEq] at h
      subst h
      exact ⟨a, by simp, ha, by simp [List.find?, hf a ha]⟩
    · simp only [Bool.not_eq_true] at ha
      simp only [findIndex, ha, Bool.false_eq_true, if_false, Option.map_eq_some'] at h
      obtain ⟨i0, hi0, rfl⟩ := h
      obtain ⟨x, hx, hpx, hfind⟩ := ih i0 hi0
      refine ⟨x, by simpa using hx, hpx, ?_⟩
      rw [List.modify_succ_cons]
      simp [List.find?, ha, hfind]

theorem find?_append_new {α : Type} (p : α → Bool) (t : α) (ht : p t = true) :
    ∀ l : List α, (∀ x ∈ l, p x = false) → List.find? p (l ++ [t]) = some t := by
  intro l
  induction l with
  | nil => intro _; simp [List.find?, ht]
  | cons a rest ih =>
    intro h
    have ha : p a = false := h a (List.mem_cons_self _ _)
    have hrest : ∀ x ∈ rest, p x = false := fun x hx => h x (List.mem_cons_of_mem _ hx)
    simp [List.find?, ha, ih hrest]

namespace TemplateManager

theorem registerTemplate_of_truthy (t : Props) (templates : List Props)
    (hid : (t.get "id").truthy = true) :
    registerTemplate (some t) templates =
      match findIndex (fun x => strictEq (x.get "id") (t.get "id")) templates with
      | some existingIndex =>
        (true, templates.modify (fun old => spread2 (.obj old) (.obj t)) existingIndex)
      | none => (true, templates ++ [t]) := by
  simp [registerTemplate, hid]

theorem spread2_id_eq (old t : Props) (h : strictEq (old.get "id") (t.get "id") = true) :
    strictEq ((spread2 (.obj old) (.obj t)).get "id") (t.get "id") = true := by
  simp only [strictEq, decide_eq_true_eq] at h ⊢
  rw [spread2_get]
  split
  · rfl
  · exact h

/-- C11: for every template list and every template with an id (truthy) and
a `name` property, `getTemplate` with that id on the list `registerTemplate`
commits returns a record, not `null`, whose id is that id and whose name is
that name. -/
theorem registerTemplate_then_getTemplate (templates : List Props) (t : Props)
    (hid : (t.get "id").truthy = true) (hname : t.has "name" = true) :
    ∃ r, getTemplate (t.get "id") (registerTemplate (some t) templates).2 = .obj r ∧
      r.get "id" = t.get "id" ∧ r.get "name" = t.get "name" := by
  rw [registerTemplate_of_truthy t templates hid]
  cases hfi : findIndex (fun x => strictEq (x.get "id") (t.get "id")) templates with
  | none =>
    have hnone := findIndex_none _ templates hfi
    have hfind := find?_append_new (fun x : Props => strictEq (x.get "id") (t.get "id")) t
      (by simp [strictEq]) templates hnone
    refine ⟨t, ?_, rfl, rfl⟩
    simp only [getTemplate, hfind, optVal, Val.or, Val.truthy, if_true]
  | some i =>
    obtain ⟨old, _, hpold, hfind⟩ := find?_modify_of_findIndex
      (fun x : Props => strictEq (x.get "id") (t.get "id"))
      (fun old => spread2 (.obj old) (.obj t))
      (fun x hx => spread2_id_eq x t hx) templates i hfi
    refine ⟨spread2 (.obj old) (.obj t), ?_, ?_, ?_⟩
    · simp only [getTemplate, hfind, optVal, Val.or, Val.truthy, if_true]
    · have := spread2_id_eq old t hpold
      simpa [strictEq] using this
    · rw [spread2_get, hname]
      rfl

/-- A run of C11: registering `{id: "t1", name: "Renamed"}` over the list
holding `t1`, then looking `t1` up. -/
theorem registerTemplate_then_getTemplate_witness :
    ((Props.ofList [("id", .str "t1"), ("name", .str "Renamed")]).get "id").truthy = true ∧
    (Props.ofList [("id", .str "t1"), ("name", .str "Renamed")]).has "name" = true ∧
    ∃ r, getTemplate ((Props.ofList [("id", .str "t1"), ("name", .str "Renamed")]).get "id")
        (registerTemplate (some (Props.ofList [("id", .str "t1"), ("name", .str "Renamed")]))
          [Sample.t1, Sample.t2]).2 = .obj r ∧
      r.get "id" = (Props.ofList [("id", .str "t1"), ("name", .str "Renamed")]).get "id" ∧
      r.get "name" = (Props.ofList [("id", .str "t1"), ("name", .str "Renamed")]).get "name" :=
  ⟨by decide, by decide,
    registerTemplate_then_getTemplate [Sample.t1, Sample.t2]
      (Props.ofList [("id", .str "t1"), ("name", .str "Renamed")]) (by decide) (by decide)⟩

end TemplateManager

/-! ## TemplateManager: re-registration and removal -/

theorem findIndex_of_mem {α : Type} (p : α → Bool) (l : List α)
    (h : ∃ x ∈ l, p x = true) : ∃ i, findIndex p l = some i := by
  cases hfi : findIndex p l with
  | some i => exact ⟨i, rfl⟩
  | none =>
    obtain ⟨x, hx, hpx⟩ := h
    have := findIndex_none p l hfi x hx
    rw [this] at hpx
    exact absurd hpx (by decide)

theorem modify_ids (t : Props) (templates : List Props) (i : Nat) (old : Props)
    (hi : templates[i]? = some old) (hold : old.get "id" = t.get "id") :
    (templates.modify (fun e => spread2 (.obj e) (.obj t)) i).map (fun e => e.get "id") =
      templates.map (fun e => e.get "id") := by
  apply List.ext_getElem?
  intro n
  rw [List.getElem?_map, List.getElem?_map, List.getElem?_modify]
  cases hn : templates[n]? with
  | none => rfl
  | some e =>
    by_cases hin : i = n
    · subst hin
      rw [hi] at hn
      simp only [Option.some.injEq] at hn
      subst hn
      have := TemplateManager.spread2_id_eq old t (by simp [strictEq, hold])
      simp only [strictEq, decide_eq_true_eq] at this
      simp [this, hold]
    · simp [hin]

namespace TemplateManager

/-- C12: registering a template whose id (truthy) some entry already has is a
merge.  The call returns `true`; the list keeps its length and the ids keep
their places; the first entry with that id becomes an entry that has, for
every key, the value of the payload when the payload has the key and its
previous value otherwise; every entry at another place is unchanged.  And for
every registration, ids that were pairwise distinct before are pairwise
distinct after. -/
theorem registerTemplate_merges (templates : List Props) (t : Props)
    (hid : (t.get "id").truthy = true) :
    ((∃ e ∈ templates, e.get "id" = t.get "id") →
      (registerTemplate (some t) templates).1 = true ∧
      (registerTemplate (some t) templates).2.length = templates.length ∧
      (registerTemplate (some t) templates).2.map (fun e => e.get "id") =
        templates.map (fun e => e.get "id") ∧
      ∃ (i : Nat) (old merged : Props),
        templates[i]? = some old ∧ old.get "id" = t.get "id" ∧
        (∀ (j : Nat) (e : Props), j < i → templates[j]? = some e →
          e.get "id" ≠ t.get "id") ∧
        (registerTemplate (some t) templates).2[i]? = some merged ∧
        (∀ k : String, merged.has k = (old.has k || t.has k) ∧
          merged.get k = if t.has k then t.get k else old.get k) ∧
        (∀ j : Nat, j ≠ i → (registerTemplate (some t) templates).2[j]? = templates[j]?)) ∧
    ((templates.map (fun e => e.get "id")).Nodup →
      ((registerTemplate (some t) templates).2.map (fun e => e.get "id")).Nodup) := by
  rw [registerTemplate_of_truthy t templates hid]
  constructor
  · rintro ⟨e, he, heid⟩
    obtain ⟨i, hfi⟩ := findIndex_of_mem (fun x : Props => strictEq (x.get "id") (t.get "id"))
      templates ⟨e, he, by simp [strictEq, heid]⟩
    obtain ⟨old, hold, hpold, hbefore⟩ := findIndex_some _ templates i hfi
    have holdid : old.get "id" = t.get "id" := by simpa [strictEq] using hpold
    simp only [hfi]
    refine ⟨trivial, List.length_modify _ _ _, modify_ids t templates i old hold holdid,
      i, old, spread2 (.obj old) (.obj t), hold, holdid, ?_, ?_, ?_, ?_⟩
    · intro j e0 hj hje
      have := hbefore j e0 hj hje
      simpa [strictEq] using this
    · rw [List.getElem?_modify, hold]
      simp
    · intro k
      exact ⟨spread2_has old t k, spread2_get old t k⟩
    · intro j hj
      rw [List.getElem?_modify]
      cases templates[j]? with
      | none => rfl
      | some e0 => simp [Ne.symm hj]
  · intro hnd
    cases hfi : findIndex (fun x : Props => strictEq (x.get "id") (t.get "id")) templates with
    | some i =>
      obtain ⟨old, hold, hpold, _⟩ := findIndex_some _ templates i hfi
      have holdid : old.get "id" = t.get "id" := by simpa [strictEq] using hpold
      simp only []
      rw [modify_ids t templates i old hold holdid]
      exact hnd
    | none =>
      have hnone := findIndex_none _ templates hfi
      simp only [List.map_append, List.map_cons, List.map_nil]
      rw [List.nodup_append]
      refine ⟨hnd, List.nodup_singleton _, ?_⟩
      intro v hv hv2
      simp only [List.mem_singleton] at hv2
      subst hv2
      obtain ⟨e, he, heid⟩ := List.mem_map.mp hv
      have := hnone e he
      simp [strictEq, heid] at this

/-- A run of C12: `{id: "t1", description: "d"}` registered over `t1`, `t2`
keeps the name and the default size of `t1` and adds the description. -/
theorem registerTemplate_merges_witness :
    ((Props.ofList [("id", .str "t1"), ("description", .str "d")]).get "id").truthy = true ∧
    (∃ e ∈ [Sample.t1, Sample.t2],
      e.get "id" = (Props.ofList [("id", .str "t1"), ("description", .str "d")]).get "id") ∧
    (registerTemplate (some (Props.ofList [("id", .str "t1"), ("description", .str "d")]))
        [Sample.t1, Sample.t2]).2 =
      [Props.ofList
        [ ("id", .str "t1"), ("name", .str "T1"),
          ("defaultSize", .obj (Props.ofList [("width", .num 300), ("height", .num 200)])),
          ("description", .str "d") ],
        Sample.t2] ∧
    (registerTemplate (some (Props.ofList [("id", .str "t1"), ("description", .str "d")]))
        [Sample.t1, Sample.t2]).2.length = [Sample.t1, Sample.t2].length :=
  ⟨by decide, ⟨Sample.t1, by decide, by decide⟩, by decide,
    ((registerTemplate_merges [Sample.t1, Sample.t2]
      (Props.ofList [("id", .str "t1"), ("description", .str "d")]) (by decide)).1
      ⟨Sample.t1, by decide, by decide⟩).2.1⟩

end TemplateManager

/-! ## Removing a template -/

theorem Props.has_delete_self (k : String) : (p : Props) → (p.delete k).has k = false
  | .nil => rfl
  | .cons key value rest => by
    have ih := Props.has_delete_self k rest
    by_cases hk : key = k
    · simp [Props.delete, hk, ih]
    · simp [Props.delete, hk, Props.has, ih]

theorem Props.lookup_of_own (k : String) (p : Props) (h : p.has k = true) :
    p.lookup k = p.get k := by
  simp [Props.lookup, h]

theorem Props.lookup_of_unknown (k : String) (p : Props) (h : p.has k = false)
    (hi : inheritedMembers.has k = false) : p.lookup k = .undefined := by
  simp [Props.lookup, h, Props.get_of_not_has k inheritedMembers hi]

theorem TemplateManager.removeTemplate_unknown_id (id : Val) (templates : List Props)
    (h : ∀ t ∈ templates, t.get "id" ≠ id) :
    TemplateManager.removeTemplate id templates = templates := by
  unfold TemplateManager.removeTemplate
  rw [List.filter_eq_self]
  intro a ha
  simp [strictEq, h a ha]

theorem TemplateManager.getTemplate_after_remove (id : Val) (templates : List Props) :
    TemplateManager.getTemplate id (TemplateManager.removeTemplate id templates) = .null := by
  have hnone : List.find? (fun template : Props => strictEq (template.get "id") id)
      (TemplateManager.removeTemplate id templates) = none := by
    rw [List.find?_eq_none]
    intro x hx
    simp only [TemplateManager.removeTemplate, List.mem_filter, Bool.not_eq_true'] at hx
    simp [hx.2]
  simp [TemplateManager.getTemplate, hnone, optVal, Val.or, Val.truthy]

theorem TemplateRegistry.removeTemplate_unknown_key (key : String) (templateMap : Props)
    (h : templateMap.has key = false) (hi : inheritedMembers.has key = false) :
    TemplateRegistry.removeTemplate key templateMap = (false, templateMap) ∧
    TemplateRegistry.getTemplateById key templateMap = .null := by
  simp [TemplateRegistry.removeTemplate, TemplateRegistry.getTemplateById,
    Props.lookup_of_unknown key templateMap h hi, Val.truthy, Val.or]

/-- C13 at the failing input: the map holds the template `t1` under `"t1"` and
nothing under `"constructor"`.  `templateMap["constructor"]` is the member
every object inherits, so `TemplateRegistry.removeTemplate("constructor")`
returns `true` (the map is as it was) and `getTemplateById("constructor")`
returns that function, before and after the removal, not `null`.  For the
unregistered id `"zz"` the same calls return `false` and `null`. -/
theorem removeTemplate_inherited_name :
    (Props.ofList [("t1", .obj Sample.t1)]).has "constructor" = false ∧
    TemplateRegistry.removeTemplate "constructor" (Props.ofList [("t1", .obj Sample.t1)]) =
      (true, Props.ofList [("t1", .obj Sample.t1)]) ∧
    TemplateRegistry.getTemplateById "constructor" (Props.ofList [("t1", .obj Sample.t1)]) =
      .func 100 ∧
    TemplateRegistry.getTemplateById "constructor"
      (TemplateRegistry.removeTemplate "constructor"
        (Props.ofList [("t1", .obj Sample.t1)])).2 = .func 100 ∧
    TemplateRegistry.removeTemplate "zz" (Props.ofList [("t1", .obj Sample.t1)]) =
      (false, Props.ofList [("t1", .obj Sample.t1)]) ∧
    TemplateRegistry.getTemplateById "zz" (Props.ofList [("t1", .obj Sample.t1)]) = .null := by
  decide

/-! ## CustomTemplateRenderer: effective behaviors -/

namespace CustomTemplateRenderer

theorem defaults_has (k : String) :
    (Props.ofList
      [ ("draggable", .bool true), ("resizable", .bool true),
        ("closable", .bool true), ("editable", .bool true) ]).has k =
      decide (k ∈ ["draggable", "resizable", "closable", "editable"]) := by
  simp only [Props.ofList, Props.has, List.mem_cons, List.mem_singleton, List.not_mem_nil,
    or_false, Bool.or_false]
  by_cases h1 : k = "draggable"
  · simp [h1]
  · by_cases h2 : k = "resizable"
    · simp [h2]
    · by_cases h3 : k = "closable"
      · simp [h3]
      · by_cases h4 : k = "editable"
        · simp [h4]
        · have e1 : ("draggable" == k) = false := by
            simp only [beq_eq_false_iff_ne, ne_eq]; exact fun h => h1 h.symm
          have e2 : ("resizable" == k) = false := by
            simp only [beq_eq_false_iff_ne, ne_eq]; exact fun h => h2 h.symm
          have e3 : ("closable" == k) = false := by
            simp only [beq_eq_false_iff_ne, ne_eq]; exact fun h => h3 h.symm
          have e4 : ("editable" == k) = false := by
            simp only [beq_eq_false_iff_ne, ne_eq]; exact fun h => h4 h.symm
          simp [e1, e2, e3, e4, h1, h2, h3, h4]

theorem defaults_get (k : String)
    (h : k ∈ ["draggable", "resizable", "closable", "editable"]) :
    (Props.ofList
      [ ("draggable", .bool true), ("resizable", .bool true),
        ("closable", .bool true), ("editable", .bool true) ]).get k = .bool true := by
  simp only [List.mem_cons, List.mem_singleton, List.not_mem_nil, or_false] at h
  rcases h with h | h | h | h <;> subst h <;> rfl

/-- C14: the effective behaviors follow the precedence default, template,
note, key by key.  For every key: the value is that of `note.behaviors` when
the note defines the key; else that of `template.behaviors` when the template
defines it; else `true` for `draggable`, `resizable`, `closable`, `editable`,
and the key is absent for any other key. -/
theorem behaviors_precedence (template note : Props) (k : String) :
    ((note.get "behaviors").ownProps.has k = true →
      (behaviors template note).has k = true ∧
      (behaviors template note).get k = (note.get "behaviors").ownProps.get k) ∧
    ((note.get "behaviors").ownProps.has k = false →
      (template.get "behaviors").ownProps.has k = true →
      (behaviors template note).has k = true ∧
      (behaviors template note).get k = (template.get "behaviors").ownProps.get k) ∧
    ((note.get "behaviors").ownProps.has k = false →
      (template.get "behaviors").ownProps.has k = false →
      (k ∈ ["draggable", "resizable", "closable", "editable"] →
        (behaviors template note).has k = true ∧
        (behaviors template note).get k = .bool true) ∧
      (k ∉ ["draggable", "resizable", "closable", "editable"] →
        (behaviors template note).has k = false ∧
        (behaviors template note).get k = .undefined)) := by
  refine ⟨?_, ?_, ?_⟩
  · intro hn
    simp only [behaviors, Props.has_assign, Props.get_assign, hn, Bool.or_true, if_true,
      and_self]
  · intro hn ht
    simp only [behaviors, Props.has_assign, Props.get_assign, hn, ht, Bool.or_true,
      Bool.or_false, Bool.false_eq_true, if_false, if_true, and_self]
  · intro hn ht
    constructor
    · intro hk
      simp only [behaviors, Props.has_assign, Props.get_assign, hn, ht, Bool.or_false,
        Bool.false_eq_true, if_false, defaults_has, defaults_get k hk, hk, decide_True,
        and_self]
    · intro hk
      have hd := defaults_has k
      simp only [hk, decide_False] at hd
      simp only [behaviors, Props.has_assign, Props.get_assign, hn, ht, Bool.or_false,
        Bool.false_eq_true, if_false, hd, Props.get_of_not_has k _ hd, and_self]

/-- A run of C14 on the template `rigid` and its note: `closable` comes from
the note, `resizable` and `pinned` from the template, `draggable` from the
defaults, and `minimizable` is absent. -/
theorem behaviors_precedence_witness :
    (behaviors Sample.rigid Sample.rigidNote).get "closable" = .bool true ∧
    (behaviors Sample.rigid Sample.rigidNote).get "resizable" = .bool false ∧
    (behaviors Sample.rigid Sample.rigidNote).get "pinned" = .bool true ∧
    (behaviors Sample.rigid Sample.rigidNote).get "draggable" = .bool true ∧
    (behaviors Sample.rigid Sample.rigidNote).has "minimizable" = false :=
  ⟨((behaviors_precedence Sample.rigid Sample.rigidNote "closable").1 (by decide)).2,
    ((behaviors_precedence Sample.rigid Sample.rigidNote "resizable").2.1
      (by decide) (by decide)).2,
    ((behaviors_precedence Sample.rigid Sample.rigidNote "pinned").2.1
      (by decide) (by decide)).2,
    (((behaviors_precedence Sample.rigid Sample.rigidNote "draggable").2.2
      (by decide) (by decide)).1 (by decide)).2,
    (((behaviors_precedence Sample.rigid Sample.rigidNote "minimizable").2.2
      (by decide) (by decide)).2 (by decide)).1⟩

end CustomTemplateRenderer

/-! ## CustomTemplateRenderer: resize commits -/

namespace CustomTemplateRenderer

theorem handleResizeStop_no_handler (call : Nat → List Val → Except JsError Val)
    (template note : Props) (e : Val) (data : Props)
    (hno : ((template.get "handlers").truthy &&
      ((template.get "handlers").prop "onResizeEnd").truthy) = false) :
    handleResizeStop call template note e data = .ok [sizeUpdate note (data.get "size")] := by
  simp only [handleResizeStop, hno, Bool.false_eq_true, if_false]

theorem truthy_of_prop (v : Val) (k : String) (h : (v.prop k).truthy = true) :
    v.truthy = true := by
  cases v with
  | obj p => rfl
  | func r => rfl
  | str s =>
    by_cases hs : s = ""
    · subst hs
      exact absurd h (by simp [Val.prop, Val.ownProps, charProps, Props.get, Val.truthy])
    · simp [Val.truthy, hs]
  | undefined => exact absurd h (by simp [Val.prop, Val.ownProps, Props.get, Val.truthy])
  | null => exact absurd h (by simp [Val.prop, Val.ownProps, Props.get, Val.truthy])
  | bool b => exact absurd h (by simp [Val.prop, Val.ownProps, Props.get, Val.truthy])
  | num n => exact absurd h (by simp [Val.prop, Val.ownProps, Props.get, Val.truthy])

theorem handleResizeStop_handler (call : Nat → List Val → Except JsError Val)
    (template note : Props) (e : Val) (data : Props) (ref : Nat) (v : Val)
    (hh : (template.get "handlers").prop "onResizeEnd" = .func ref)
    (hcall : call ref [e, .obj (Props.ofList [("size", data.get "size")]), .obj note] = .ok v) :
    handleResizeStop call template note e data =
      .ok [sizeUpdate note (if v.truthy then v else data.get "size")] := by
  have ht : (template.get "handlers").truthy = true :=
    truthy_of_prop _ "onResizeEnd" (by rw [hh]; rfl)
  have hf : (Val.func ref).truthy = true := rfl
  simp only [handleResizeStop, hh, ht, hf, Bool.and_self, if_true, callVal, hcall]

/-- C15: with a template that declares no `onResizeEnd` handler,
`handleResizeStop` commits the size it is handed, unchanged; the size the
`Resizable` component hands it under `minConstraints = [100, 100]` and
`maxConstraints = [1000, 1000]` is within that envelope, so for every gesture
the committed width and height are within [100, 1000], and a gesture of
5 by 5 commits `{width: 100, height: 100}`. -/
theorem handleResizeStop_generic_clamped (call : Nat → List Val → Except JsError Val)
    (template note : Props) (e : Val) (data : Props) (width height : Int)
    (hno : ((template.get "handlers").truthy &&
      ((template.get "handlers").prop "onResizeEnd").truthy) = false)
    (hdata : data.get "size" = Resizable.reportedSize (100, 100) (1000, 1000) width height) :
    ∃ w h : Int,
      handleResizeStop call template note e data =
        .ok [Props.ofList [("id", note.get "id"), ("size", sizeVal w h)]] ∧
      100 ≤ w ∧ w ≤ 1000 ∧ 100 ≤ h ∧ h ≤ 1000 ∧
      (width = 5 → height = 5 → w = 100 ∧ h = 100) := by
  refine ⟨min (max width 100) 1000, min (max height 100) 1000, ?_, ?_, ?_, ?_, ?_, ?_⟩
  · rw [handleResizeStop_no_handler call template note e data hno, hdata]
    rfl
  · omega
  · omega
  · omega
  · omega
  · intro hw hh
    subst hw hh
    decide

/-- A run of C15: the gesture of 5 by 5 on a note of the template `plain`. -/
theorem handleResizeStop_generic_clamped_witness :
    ∃ w h : Int,
      handleResizeStop (fun _ _ => .ok .undefined) Sample.plain Sample.rigidNote .null
          (Props.ofList [("size", Resizable.reportedSize (100, 100) (1000, 1000) 5 5)]) =
        .ok [Props.ofList [("id", Sample.rigidNote.get "id"), ("size", sizeVal w h)]] ∧
      100 ≤ w ∧ w ≤ 1000 ∧ 100 ≤ h ∧ h ≤ 1000 ∧
      ((5 : Int) = 5 → (5 : Int) = 5 → w = 100 ∧ h = 100) :=
  handleResizeStop_generic_clamped (fun _ _ => .ok .undefined) Sample.plain Sample.rigidNote
    .null (Props.ofList [("size", Resizable.reportedSize (100, 100) (1000, 1000) 5 5)]) 5 5
    (by decide) (by decide)

/-- C16: `handleResizeStop` commits exactly one update `{id: note.id, size}`.
Without an `onResizeEnd` handler the size is the size of the gesture.  With a
handler, called on `(e, {size}, note)` and returning `v`: the size is `v` when
`v` is an object, and the size of the gesture when `v` is `null` or
`undefined`. -/
theorem handleResizeStop_commit (call : Nat → List Val → Except JsError Val)
    (template note : Props) (e : Val) (data : Props) :
    ((((template.get "handlers").truthy &&
        ((template.get "handlers").prop "onResizeEnd").truthy) = false) →
      handleResizeStop call template note e data =
        .ok [Props.ofList [("id", note.get "id"), ("size", data.get "size")]]) ∧
    (∀ (ref : Nat) (v : Val),
      (template.get "handlers").prop "onResizeEnd" = .func ref →
      call ref [e, .obj (Props.ofList [("size", data.get "size")]), .obj note] = .ok v →
      (∀ s : Props, v = .obj s →
        handleResizeStop call template note e data =
          .ok [Props.ofList [("id", note.get "id"), ("size", .obj s)]]) ∧
      (v = .null ∨ v = .undefined →
        handleResizeStop call template note e data =
          .ok [Props.ofList [("id", note.get "id"), ("size", data.get "size")]])) := by
  constructor
  · intro hno
    exact handleResizeStop_no_handler call template note e data hno
  · intro ref v hh hcall
    have key := handleResizeStop_handler call template note e data ref v hh hcall
    constructor
    · intro s hs
      subst hs
      rw [key]
      rfl
    · intro hv
      rw [key]
      rcases hv with hv | hv <;> subst hv <;> rfl

/-- A run of C16 on the template `handled`, whose handler returns the size
300 by 200 for a gesture of 900 by 900. -/
theorem handleResizeStop_commit_witness :
    handleResizeStop (fun _ _ => .ok (sizeVal 300 200)) Sample.handled Sample.rigidNote .null
        (Props.ofList [("size", sizeVal 900 900)]) =
      .ok [Props.ofList [("id", .str "n1"), ("size", sizeVal 300 200)]] ∧
    handleResizeStop (fun _ _ => .ok .null) Sample.handled Sample.rigidNote .null
        (Props.ofList [("size", sizeVal 900 900)]) =
      .ok [Props.ofList [("id", .str "n1"), ("size", sizeVal 900 900)]] ∧
    handleResizeStop (fun _ _ => .ok .null) Sample.plain Sample.rigidNote .null
        (Props.ofList [("size", sizeVal 900 900)]) =
      .ok [Props.ofList [("id", .str "n1"), ("size", sizeVal 900 900)]] :=
  ⟨((handleResizeStop_commit (fun _ _ => .ok (sizeVal 300 200)) Sample.handled
      Sample.rigidNote .null (Props.ofList [("size", sizeVal 900 900)])).2 7 (sizeVal 300 200)
      (by decide) rfl).1 _ rfl,
    ((handleResizeStop_commit (fun _ _ => .ok .null) Sample.handled
      Sample.rigidNote .null (Props.ofList [("size", sizeVal 900 900)])).2 7 .null
      (by decide) rfl).2 (Or.inl rfl),
    (handleResizeStop_commit (fun _ _ => .ok .null) Sample.plain
      Sample.rigidNote .null (Props.ofList [("size", sizeVal 900 900)])).1 (by decide)⟩

end CustomTemplateRenderer

/-! ## Resize commits under the handlers of the templates -/

theorem NoteTemplate.onResizeEnd_null_iff (width height : Int) :
    NoteTemplate.onResizeEnd width height = .null ↔
      (100 ≤ width ∧ width ≤ 600 ∧ 100 ≤ height ∧ height ≤ 600) := by
  unfold NoteTemplate.onResizeEnd
  simp only []
  split
  · rename_i hc
    constructor
    · intro h
      exact absurd h (by simp [sizeVal])
    · intro h
      omega
  · rename_i hc
    constructor
    · intro _
      omega
    · intro _
      rfl

namespace CustomTemplateRenderer

/-- C17: with a numeric gesture size, `handleResizeStop` combined with the
code-note handler commits a size within [150, 800] by [100, 800], with the
task-list handler a size within [150, 500] by [100, 600], and with the default
handler of `NoteTemplate` a size within [100, 600] by [100, 600]; the default
handler returns `null` exactly when the gesture size is within its bounds. -/
theorem handleResizeStop_within_bounds (call : Nat → List Val → Except JsError Val)
    (template note : Props) (e : Val) (data : Props) (ref : Nat) (width height : Int)
    (hh : (template.get "handlers").prop "onResizeEnd" = .func ref)
    (hdata : data.get "size" = sizeVal width height) :
    (call ref [e, .obj (Props.ofList [("size", sizeVal width height)]), .obj note] =
        .ok (CodeNoteTemplate.onResizeEnd width height) →
      ∃ w h : Int,
        handleResizeStop call template note e data =
          .ok [Props.ofList [("id", note.get "id"), ("size", sizeVal w h)]] ∧
        150 ≤ w ∧ w ≤ 800 ∧ 100 ≤ h ∧ h ≤ 800) ∧
    (call ref [e, .obj (Props.ofList [("size", sizeVal width height)]), .obj note] =
        .ok (TaskListTemplate.onResizeEnd width height) →
      ∃ w h : Int,
        handleResizeStop call template note e data =
          .ok [Props.ofList [("id", note.get "id"), ("size", sizeVal w h)]] ∧
        150 ≤ w ∧ w ≤ 500 ∧ 100 ≤ h ∧ h ≤ 600) ∧
    (call ref [e, .obj (Props.ofList [("size", sizeVal width height)]), .obj note] =
        .ok (NoteTemplate.onResizeEnd width height) →
      ∃ w h : Int,
        handleResizeStop call template note e data =
          .ok [Props.ofList [("id", note.get "id"), ("size", sizeVal w h)]] ∧
        100 ≤ w ∧ w ≤ 600 ∧ 100 ≤ h ∧ h ≤ 600) ∧
    (NoteTemplate.onResizeEnd width height = .null ↔
      (100 ≤ width ∧ width ≤ 600 ∧ 100 ≤ height ∧ height ≤ 600)) := by
  refine ⟨?_, ?_, ?_, NoteTemplate.onResizeEnd_null_iff width height⟩
  · intro hcall
    rw [← hdata] at hcall
    refine ⟨min (max width 150) 800, min (max height 100) 800, ?_, by omega, by omega,
      by omega, by omega⟩
    rw [handleResizeStop_handler call template note e data ref _ hh hcall]
    rfl
  · intro hcall
    rw [← hdata] at hcall
    refine ⟨min (max width 150) 500, min (max height 100) 600, ?_, by omega, by omega,
      by omega, by omega⟩
    rw [handleResizeStop_handler call template note e data ref _ hh hcall]
    rfl
  · intro hcall
    rw [← hdata] at hcall
    rw [handleResizeStop_handler call template note e data ref _ hh hcall]
    by_cases hin : 100 ≤ width ∧ width ≤ 600 ∧ 100 ≤ height ∧ height ≤ 600
    · rw [(NoteTemplate.onResizeEnd_null_iff width height).mpr hin, hdata]
      exact ⟨width, height, rfl, hin.1, hin.2.1, hin.2.2.1, hin.2.2.2⟩
    · have hne : NoteTemplate.onResizeEnd width height =
          sizeVal (min (max width 100) 600) (min (max height 100) 600) := by
        unfold NoteTemplate.onResizeEnd
        simp only []
        split
        · rfl
        · rename_i hc
          exact absurd (by omega) hin
      rw [hne]
      exact ⟨min (max width 100) 600, min (max height 100) 600, rfl, by omega, by omega,
        by omega, by omega⟩

/-- A run of C17: a gesture of 900 by 50 under the three handlers. -/
theorem handleResizeStop_within_bounds_witness :
    handleResizeStop (fun _ _ => .ok (CodeNoteTemplate.onResizeEnd 900 50)) Sample.handled
        Sample.rigidNote .null (Props.ofList [("size", sizeVal 900 50)]) =
      .ok [Props.ofList [("id", .str "n1"), ("size", sizeVal 800 100)]] ∧
    handleResizeStop (fun _ _ => .ok (TaskListTemplate.onResizeEnd 900 50)) Sample.handled
        Sample.rigidNote .null (Props.ofList [("size", sizeVal 900 50)]) =
      .ok [Props.ofList [("id", .str "n1"), ("size", sizeVal 500 100)]] ∧
    (∃ w h : Int,
      handleResizeStop (fun _ _ => .ok (NoteTemplate.onResizeEnd 900 50)) Sample.handled
          Sample.rigidNote .null (Props.ofList [("size", sizeVal 900 50)]) =
        .ok [Props.ofList [("id", Sample.rigidNote.get "id"), ("size", sizeVal w h)]] ∧
      100 ≤ w ∧ w ≤ 600 ∧ 100 ≤ h ∧ h ≤ 600) :=
  ⟨rfl, rfl,
    (handleResizeStop_within_bounds (fun _ _ => .ok (NoteTemplate.onResizeEnd 900 50))
      Sample.handled Sample.rigidNote .null (Props.ofList [("size", sizeVal 900 50)]) 7 900 50
      (by decide) (by decide)).2.2.1 rfl⟩

end CustomTemplateRenderer

/-! ## NoteTemplate: export and duplication -/

theorem spread_get (p : Props) (k : String) : (spread (.obj p)).get k = p.get k := by
  simp only [spread, Val.ownProps, Props.get_assign]
  by_cases h : p.has k = true
  · simp [h]
  · simp only [Bool.not_eq_true] at h
    simp [h, Props.get_of_not_has k p h, Props.get]

theorem spread_has (p : Props) (k : String) : (spread (.obj p)).has k = p.has k := by
  simp [spread, Val.ownProps, Props.has_assign, Props.has]

theorem spread_ownProps_get (v : Val) (k : String) :
    (spread (.obj (spread v))).get k = v.ownProps.get k := by
  rw [spread_get]
  exact spread_get v.ownProps k

theorem spread_ownProps_has (v : Val) (k : String) :
    (spread (.obj (spread v))).has k = v.ownProps.has k := by
  rw [spread_has]
  exact spread_has v.ownProps k

namespace NoteTemplate

/-- C18: for a template named `N` and a note with content `C` (strings),
`exportNote(note, 'markdown')` is exactly `"# " + N + "\n\n" + C`; for the
name `"Text Note"` and the content `"hi"` it is `"# Text Note\n\nhi"`. -/
theorem exportNote_markdown (host : Host) (self note : Props) (N C : String)
    (hname : self.get "name" = .str N) (hcontent : note.get "content" = .str C) :
    exportNote host self note (.str "markdown") = "# " ++ N ++ "\n\n" ++ C ∧
    (N = "Text Note" → C = "hi" →
      exportNote host self note (.str "markdown") = "# Text Note\n\nhi") := by
  have key : exportNote host self note (.str "markdown") = "# " ++ N ++ "\n\n" ++ C := by
    have h1 : (Val.str "markdown" = Val.undefined) = False := by simp
    have h2 : strictEq (Val.str "markdown") (Val.str "json") = false := by decide
    have h3 : strictEq (Val.str "markdown") (Val.str "markdown") = true := by decide
    simp only [exportNote, h1, if_false, h2, h3, Bool.false_eq_true, if_true, hname, hcontent,
      Host.str]
  refine ⟨key, ?_⟩
  intro hN hC
  rw [key, hN, hC]
  rfl

/-- A run of C18 on the template `Text Note` and a note with content `hi`. -/
theorem exportNote_markdown_witness :
    exportNote Sample.host Sample.textNote (Sample.placed "hi") (.str "markdown") =
      "# Text Note\n\nhi" :=
  (exportNote_markdown Sample.host Sample.textNote (Sample.placed "hi") "Text Note" "hi"
    (by decide) (by decide)).2 rfl rfl

theorem duplicateNote_of_position (host : Host) (self note : Props)
    (h1 : note.get "position" ≠ .undefined) (h2 : note.get "position" ≠ .null) :
    duplicateNote host self note =
      .ok (createNoteInstance host self .null
        (.obj (Props.ofList
          [ ("x", host.add ((note.get "position").prop "x") (.num 20)),
            ("y", host.add ((note.get "position").prop "y") (.num 20)) ]))
        (Props.ofList
          [ ("content", note.get "content"),
            ("size", .obj (spread (note.get "size"))),
            ("metadata", .obj (spread (note.get "metadata"))),
            ("theme", note.get "theme") ])) := by
  unfold duplicateNote
  cases hp : note.get "position" with
  | undefined => exact absurd hp h1
  | null => exact absurd hp h2
  | bool b => rfl
  | num n => rfl
  | str s => rfl
  | func r => rfl
  | obj p => rfl

/-- C19: for every note whose position has numeric `x` and `y`,
`duplicateNote` returns a note whose position is `{x + 20, y + 20}`; a note at
`{x: 50, y: 50}` duplicates to `{x: 70, y: 70}`. -/
theorem duplicateNote_position (host : Host) (self note p : Props) (x y : Int)
    (hp : note.get "position" = .obj p) (hx : p.get "x" = .num x) (hy : p.get "y" = .num y) :
    ∃ d, duplicateNote host self note = .ok d ∧
      d.get "position" = .obj (Props.ofList [("x", .num (x + 20)), ("y", .num (y + 20))]) ∧
      (x = 50 → y = 50 →
        d.get "position" = .obj (Props.ofList [("x", .num 70), ("y", .num 70)])) := by
  have hd := duplicateNote_of_position host self note (by rw [hp]; simp) (by rw [hp]; simp)
  have hpos : (createNoteInstance host self .null
        (.obj (Props.ofList
          [ ("x", host.add ((note.get "position").prop "x") (.num 20)),
            ("y", host.add ((note.get "position").prop "y") (.num 20)) ]))
        (Props.ofList
          [ ("content", note.get "content"),
            ("size", .obj (spread (note.get "size"))),
            ("metadata", .obj (spread (note.get "metadata"))),
            ("theme", note.get "theme") ])).get "position" =
      .obj (Props.ofList [("x", .num (x + 20)), ("y", .num (y + 20))]) := by
    have e : (createNoteInstance host self .null
        (.obj (Props.ofList
          [ ("x", host.add ((note.get "position").prop "x") (.num 20)),
            ("y", host.add ((note.get "position").prop "y") (.num 20)) ]))
        (Props.ofList
          [ ("content", note.get "content"),
            ("size", .obj (spread (note.get "size"))),
            ("metadata", .obj (spread (note.get "metadata"))),
            ("theme", note.get "theme") ])).get "position" =
        .obj (Props.ofList
          [ ("x", host.add ((note.get "position").prop "x") (.num 20)),
            ("y", host.add ((note.get "position").prop "y") (.num 20)) ]) := rfl
    rw [e, hp]
    simp only [Val.prop, Val.ownProps, hx, hy, Host.add]
  refine ⟨_, hd, hpos, ?_⟩
  intro h50 h50y
  rw [hpos, h50, h50y]
  rfl

/-- A run of C19 on a note at `{x: 50, y: 50}`. -/
theorem duplicateNote_position_witness :
    ∃ d, duplicateNote Sample.host Sample.textNote (Sample.placed "hi") = .ok d ∧
      d.get "position" =
        .obj (Props.ofList [("x", .num ((50 : Int) + 20)), ("y", .num ((50 : Int) + 20))]) ∧
      ((50 : Int) = 50 → (50 : Int) = 50 →
        d.get "position" = .obj (Props.ofList [("x", .num 70), ("y", .num 70)])) :=
  duplicateNote_position Sample.host Sample.textNote (Sample.placed "hi")
    (Props.ofList [("x", .num 50), ("y", .num 50)]) 50 50 (by decide) (by decide) (by decide)

end NoteTemplate

namespace NoteTemplate

/-- C20, as stated, fails: the note `blank` has empty content and no theme,
and its duplicate under the template `Text Note` has the default content of
the template and the theme `light`. -/
theorem duplicateNote_blank_not_preserved :
    (Sample.blank.get "content", Sample.blank.get "theme") = (.str "", .undefined) ∧
    (duplicateNote Sample.host Sample.textNote Sample.blank).toOption.map
        (fun d => (d.get "content", d.get "theme")) =
      some (.str "Add your content here...", .str "light") := by
  decide

/-- C20, amended: for every note with a position, `duplicateNote` returns a
note whose size and metadata are objects with the same keys and values as the
size and metadata of the source, whose content is the source content when
that is non-empty (truthy), and whose theme is the source theme when that is
set (truthy) and `light` when it is not. -/
theorem duplicateNote_preserves (host : Host) (self note : Props)
    (h1 : note.get "position" ≠ .undefined) (h2 : note.get "position" ≠ .null) :
    ∃ d size metadata : Props, duplicateNote host self note = .ok d ∧
      ((note.get "content").truthy = true → d.get "content" = note.get "content") ∧
      ((note.get "theme").truthy = true → d.get "theme" = note.get "theme") ∧
      ((note.get "theme").truthy = false → d.get "theme" = .str "light") ∧
      d.get "size" = .obj size ∧
      (∀ k : String, size.has k = (note.get "size").ownProps.has k ∧
        size.get k = (note.get "size").ownProps.get k) ∧
      d.get "metadata" = .obj metadata ∧
      (∀ k : String, metadata.has k = (note.get "metadata").ownProps.has k ∧
        metadata.get k = (note.get "metadata").ownProps.get k) := by
  refine ⟨_, spread (note.get "size"), spread (.obj (spread (note.get "metadata"))),
    duplicateNote_of_position host self note h1 h2, ?_, ?_, ?_, rfl, ?_, rfl, ?_⟩
  · intro hc
    show (note.get "content").or (self.get "defaultContent") = note.get "content"
    simp [Val.or, hc]
  · intro ht
    show (note.get "theme").or (.str "light") = note.get "theme"
    simp [Val.or, ht]
  · intro ht
    show (note.get "theme").or (.str "light") = .str "light"
    simp [Val.or, ht]
  · intro k
    exact ⟨spread_has (note.get "size").ownProps k, spread_get (note.get "size").ownProps k⟩
  · intro k
    exact ⟨spread_ownProps_has (note.get "metadata") k, spread_ownProps_get (note.get "metadata") k⟩

/-- A run of the amended C20 on a note with content `hi`, theme `dark`, a
size and a metadata object. -/
theorem duplicateNote_preserves_witness :
    Sample.textNote.get "id" = .str "text-note" ∧
    ∃ d size metadata : Props,
      duplicateNote Sample.host Sample.textNote (Sample.placed "hi") = .ok d ∧
      (((Sample.placed "hi").get "content").truthy = true →
        d.get "content" = (Sample.placed "hi").get "content") ∧
      (((Sample.placed "hi").get "theme").truthy = true →
        d.get "theme" = (Sample.placed "hi").get "theme") ∧
      (((Sample.placed "hi").get "theme").truthy = false → d.get "theme" = .str "light") ∧
      d.get "size" = .obj size ∧
      (∀ k : String, size.has k = ((Sample.placed "hi").get "size").ownProps.has k ∧
        size.get k = ((Sample.placed "hi").get "size").ownProps.get k) ∧
      d.get "metadata" = .obj metadata ∧
      (∀ k : String, metadata.has k = ((Sample.placed "hi").get "metadata").ownProps.has k ∧
        metadata.get k = ((Sample.placed "hi").get "metadata").ownProps.get k) :=
  ⟨by decide,
    duplicateNote_preserves Sample.host Sample.textNote (Sample.placed "hi")
      (by decide) (by decide)⟩

end NoteTemplate

/-! ## NoteTemplate: ids and defaults of a new instance -/

namespace NoteTemplate

/-- C21 at the failing input: a note created without a supplied id while the
clock reads 1700000000000 has the id `note-1700000000000`; `duplicateNote` of
that note, called while the clock reads the same value, returns a note with
that same id, not a new one. -/
theorem duplicateNote_id_collision :
    Sample.generated.get "id" = .str "note-1700000000000" ∧
    (duplicateNote Sample.host Sample.textNote Sample.generated).toOption.map
        (fun d => d.get "id") = some (Sample.generated.get "id") := by
  decide

/-- C22, as stated, fails: with `options = {content: ""}` the note created
for the template `Text Note` has the default content of the template, not the
empty string supplied. -/
theorem createNoteInstance_empty_content :
    (createNoteInstance Sample.host Sample.textNote (.str "n1") Sample.pos
        (Props.ofList [("content", .str "")])).get "content" =
      .str "Add your content here..." := by
  decide

/-- C22, amended: `createNoteInstance(id, position, options)` returns a note
whose `templateId` is the id of the template; whose id, position, content and
size are the supplied ones when those are truthy (a non-empty string, an
object); and otherwise the generated id, `{x: 100, y: 100}`, the default
content of the template and a copy of its default size. -/
theorem createNoteInstance_fields (host : Host) (self : Props) (id position : Val)
    (options : Props) :
    (createNoteInstance host self id position options).get "templateId" = self.get "id" ∧
    (id.truthy = true → (createNoteInstance host self id position options).get "id" = id) ∧
    (id.truthy = false →
      (createNoteInstance host self id position options).get "id" =
        .str ("note-" ++ toString host.now)) ∧
    (position.truthy = true →
      (createNoteInstance host self id position options).get "position" = position) ∧
    (position.truthy = false →
      (createNoteInstance host self id position options).get "position" =
        .obj (Props.ofList [("x", .num 100), ("y", .num 100)])) ∧
    ((options.get "content").truthy = true →
      (createNoteInstance host self id position options).get "content" =
        options.get "content") ∧
    ((options.get "content").truthy = false →
      (createNoteInstance host self id position options).get "content" =
        self.get "defaultContent") ∧
    ((options.get "size").truthy = true →
      (createNoteInstance host self id position options).get "size" = options.get "size") ∧
    ((options.get "size").truthy = false →
      ∃ size : Props,
        (createNoteInstance host self id position options).get "size" = .obj size ∧
        ∀ k : String, size.has k = (self.get "defaultSize").ownProps.has k ∧
          size.get k = (self.get "defaultSize").ownProps.get k) := by
  refine ⟨rfl, ?_, ?_, ?_, ?_, ?_, ?_, ?_, ?_⟩
  · intro h
    show id.or _ = id
    simp [Val.or, h]
  · intro h
    show id.or _ = _
    simp [Val.or, h]
  · intro h
    show position.or _ = position
    simp [Val.or, h]
  · intro h
    show position.or _ = _
    simp [Val.or, h]
  · intro h
    show (options.get "content").or _ = _
    simp [Val.or, h]
  · intro h
    show (options.get "content").or _ = _
    simp [Val.or, h]
  · intro h
    show (options.get "size").or _ = _
    simp [Val.or, h]
  · intro h
    refine ⟨spread (self.get "defaultSize"), ?_, ?_⟩
    · show (options.get "size").or _ = _
      simp [Val.or, h]
    · intro k
      exact ⟨spread_has (self.get "defaultSize").ownProps k,
        spread_get (self.get "defaultSize").ownProps k⟩

/-- A run of the amended C22 with the id `n1`, the position `{x: 10, y: 20}`
and `options = {content: "hello"}`. -/
theorem createNoteInstance_fields_witness :
    (createNoteInstance Sample.host Sample.textNote (.str "n1") Sample.pos
        (Props.ofList [("content", .str "hello")])).get "id" = .str "n1" ∧
    (createNoteInstance Sample.host Sample.textNote (.str "n1") Sample.pos
        (Props.ofList [("content", .str "hello")])).get "position" = Sample.pos ∧
    (createNoteInstance Sample.host Sample.textNote (.str "n1") Sample.pos
        (Props.ofList [("content", .str "hello")])).get "content" = .str "hello" :=
  ⟨(createNoteInstance_fields Sample.host Sample.textNote (.str "n1") Sample.pos
      (Props.ofList [("content", .str "hello")])).2.1 (by decide),
    (createNoteInstance_fields Sample.host Sample.textNote (.str "n1") Sample.pos
      (Props.ofList [("content", .str "hello")])).2.2.2.1 (by decide),
    (createNoteInstance_fields Sample.host Sample.textNote (.str "n1") Sample.pos
      (Props.ofList [("content", .str "hello")])).2.2.2.2.2.1 (by decide)⟩

end NoteTemplate

/-! ## NoteTemplate: constructor -/

theorem orDefault_empty_ownProps (v : Val) : (orDefault v (.obj .nil)).ownProps = v.ownProps := by
  unfold orDefault
  split
  · rename_i h
    rw [h]
    rfl
  · rfl

namespace NoteTemplate

theorem new_behaviors (id name description defaultSize defaultContent component customControls
    canvasComponent behaviors handlers styles themes animations accessibility : Val) :
    (new id name description defaultSize defaultContent component customControls
      canvasComponent behaviors handlers styles themes animations accessibility).get
        "behaviors" = .obj (defaultBehaviors.assign behaviors.ownProps) := by
  show Val.obj (defaultBehaviors.assign (orDefault behaviors (.obj .nil)).ownProps) = _
  rw [orDefault_empty_ownProps]

theorem new_handlers (id name description defaultSize defaultContent component customControls
    canvasComponent behaviors handlers styles themes animations accessibility : Val) :
    (new id name description defaultSize defaultContent component customControls
      canvasComponent behaviors handlers styles themes animations accessibility).get
        "handlers" = .obj (defaultHandlers.assign handlers.ownProps) := by
  show Val.obj (defaultHandlers.assign (orDefault handlers (.obj .nil)).ownProps) = _
  rw [orDefault_empty_ownProps]

theorem new_themes (id name description defaultSize defaultContent component customControls
    canvasComponent behaviors handlers styles themes animations accessibility : Val) :
    (new id name description defaultSize defaultContent component customControls
      canvasComponent behaviors handlers styles themes animations accessibility).get
        "themes" = .obj (defaultThemes.assign themes.ownProps) := by
  show Val.obj (defaultThemes.assign (orDefault themes (.obj .nil)).ownProps) = _
  rw [orDefault_empty_ownProps]

/-- C23: the behaviors the constructor produces are the defaults overlaid key
by key with the mapping supplied: a key of the mapping has the value of the
mapping, a key it omits has its default (`true` for draggable, resizable,
deletable, minimizable, lockable, exportable, duplicatable, themeable; `false`
for canCreateNotes, undoable).  The same holds for handlers, and a supplied
`{onResizeEnd: v}` replaces that handler only. -/
theorem new_overlays_defaults (id name description defaultSize defaultContent component
    customControls canvasComponent behaviors handlers styles themes animations
    accessibility : Val) :
    ∃ B H : Props,
      (new id name description defaultSize defaultContent component customControls
        canvasComponent behaviors handlers styles themes animations accessibility).get
          "behaviors" = .obj B ∧
      (new id name description defaultSize defaultContent component customControls
        canvasComponent behaviors handlers styles themes animations accessibility).get
          "handlers" = .obj H ∧
      (∀ k : String,
        (behaviors.ownProps.has k = true → B.get k = behaviors.ownProps.get k) ∧
        (behaviors.ownProps.has k = false →
          B.get k = defaultBehaviors.get k ∧ B.has k = defaultBehaviors.has k)) ∧
      (defaultBehaviors.get "draggable" = .bool true ∧
        defaultBehaviors.get "resizable" = .bool true ∧
        defaultBehaviors.get "deletable" = .bool true ∧
        defaultBehaviors.get "minimizable" = .bool true ∧
        defaultBehaviors.get "lockable" = .bool true ∧
        defaultBehaviors.get "exportable" = .bool true ∧
        defaultBehaviors.get "duplicatable" = .bool true ∧
        defaultBehaviors.get "themeable" = .bool true ∧
        defaultBehaviors.get "canCreateNotes" = .bool false ∧
        defaultBehaviors.get "undoable" = .bool false) ∧
      (∀ k : String,
        (handlers.ownProps.has k = true → H.get k = handlers.ownProps.get k) ∧
        (handlers.ownProps.has k = false →
          H.get k = defaultHandlers.get k ∧ H.has k = defaultHandlers.has k)) ∧
      (∀ v : Val, handlers = .obj (Props.ofList [("onResizeEnd", v)]) →
        H.get "onResizeEnd" = v ∧
        ∀ k : String, k ≠ "onResizeEnd" → H.get k = defaultHandlers.get k) := by
  refine ⟨defaultBehaviors.assign behaviors.ownProps, defaultHandlers.assign handlers.ownProps,
    new_behaviors _ _ _ _ _ _ _ _ _ _ _ _ _ _, new_handlers _ _ _ _ _ _ _ _ _ _ _ _ _ _,
    ?_, by decide, ?_, ?_⟩
  · intro k
    constructor
    · intro h
      rw [Props.get_assign, h]
      rfl
    · intro h
      rw [Props.get_assign, Props.has_assign, h]
      simp
  · intro k
    constructor
    · intro h
      rw [Props.get_assign, h]
      rfl
    · intro h
      rw [Props.get_assign, Props.has_assign, h]
      simp
  · intro v hv
    subst hv
    constructor
    · rfl
    · intro k hk
      have e : ("onResizeEnd" == k) = false := by
        simp only [beq_eq_false_iff_ne, ne_eq]
        exact fun h => hk h.symm
      rw [Props.get_assign]
      simp [Val.ownProps, Props.ofList, Props.has, e]

/-- A run of C23 on the template `custom`: `resizable` and `pinned` come from
the mapping supplied, `draggable` and `undoable` keep their defaults; the
handler `onResizeEnd` is the one supplied and `onDragEnd` the default one. -/
theorem new_overlays_defaults_witness :
    ∃ B H : Props,
      Sample.custom.get "behaviors" = .obj B ∧ Sample.custom.get "handlers" = .obj H ∧
      B.get "resizable" = .bool false ∧ B.get "pinned" = .bool true ∧
      B.get "draggable" = .bool true ∧ B.get "undoable" = .bool false ∧
      H.get "onResizeEnd" = .func 7 ∧ H.get "onDragEnd" = .func defaultOnDragEnd :=
  let ⟨B, H, hB, hH, hb, _, _, hr⟩ := new_overlays_defaults (.str "c") (.str "Custom")
    (.str "d") .undefined .undefined .undefined .undefined .undefined
    (.obj (Props.ofList [("resizable", .bool false), ("pinned", .bool true)]))
    (.obj (Props.ofList [("onResizeEnd", .func 7)]))
    .undefined
    (.obj (Props.ofList [("light", .obj (Props.ofList [("backgroundColor", .str "#000000")]))]))
    .undefined .undefined
  ⟨B, H, hB, hH, (hb "resizable").1 (by decide), (hb "pinned").1 (by decide),
    ((hb "draggable").2 (by decide)).1, ((hb "undoable").2 (by decide)).1,
    (hr (.func 7) rfl).1, (hr (.func 7) rfl).2 "onDragEnd" (by decide)⟩

end NoteTemplate

/-! ## NoteTemplate: themes -/

namespace NoteTemplate

theorem getThemeStyles_of_themes (self T : Props) (name : String)
    (h : self.get "themes" = .obj T) :
    getThemeStyles self (some name) =
      .ok (if (T.lookup name).truthy then T.lookup name else T.get "light") := by
  simp only [getThemeStyles, h, Option.getD_some, Val.lookup, Val.member, Val.prop,
    Val.ownProps, bind, Except.bind, pure, Except.pure]
  split <;> rfl

/-- The lookup of `getThemeStyles` goes through the members every object
inherits: on the template `custom`, whose themes have no palette `toString`,
`getThemeStyles("toString")` returns the inherited function, not the `light`
palette. -/
theorem getThemeStyles_inherited_name :
    ((Sample.custom.get "themes").ownProps.has "toString" = false) ∧
    (getThemeStyles Sample.custom (some "toString")).toOption = some (.func 108) := by
  decide

/-- C24, as stated, fails: with the themes `{light: {backgroundColor:
"#000000"}}` passed to the constructor, the `light` palette of the template is
that object alone; it has no `textColor`. -/
theorem new_theme_replaced :
    (Sample.custom.get "themes").prop "light" =
      .obj (Props.ofList [("backgroundColor", .str "#000000")]) ∧
    ((Sample.custom.get "themes").prop "light").prop "textColor" = .undefined := by
  decide

/-- C24, amended: custom themes merge over the defaults by theme name.  For
every themes mapping passed to the constructor the resulting themes have both
`light` and `dark`; a palette supplied under a name is the palette of that
name, as supplied; `light` and `dark` are the default palettes, with the five
colour roles, when the mapping does not supply them; `getThemeStyles(name)`
returns the palette the themes hold under that name (the `light` palette when
the value held is falsy), and the `light` palette for a name the themes do not
hold and that is not the name of a member every object inherits. -/
theorem new_themes_by_name (id name description defaultSize defaultContent component
    customControls canvasComponent behaviors handlers styles themes animations
    accessibility : Val) :
    ∃ T : Props,
      (new id name description defaultSize defaultContent component customControls
        canvasComponent behaviors handlers styles themes animations accessibility).get
          "themes" = .obj T ∧
      T.has "light" = true ∧ T.has "dark" = true ∧
      (∀ k : String, themes.ownProps.has k = true → T.get k = themes.ownProps.get k) ∧
      (themes.ownProps.has "light" = false → T.get "light" = .obj lightTheme) ∧
      (themes.ownProps.has "dark" = false → T.get "dark" = .obj darkTheme) ∧
      (∀ role ∈ ["backgroundColor", "textColor", "borderColor", "headerColor", "accentColor"],
        lightTheme.has role = true ∧ darkTheme.has role = true) ∧
      (∀ k : String, T.has k = true →
        getThemeStyles (new id name description defaultSize defaultContent component
          customControls canvasComponent behaviors handlers styles themes animations
          accessibility) (some k) =
          .ok (if (T.get k).truthy then T.get k else T.get "light")) ∧
      (∀ k : String, T.has k = false → inheritedMembers.has k = false →
        getThemeStyles (new id name description defaultSize defaultContent component
          customControls canvasComponent behaviors handlers styles themes animations
          accessibility) (some k) = .ok (T.get "light")) := by
  refine ⟨defaultThemes.assign themes.ownProps, new_themes _ _ _ _ _ _ _ _ _ _ _ _ _ _,
    ?_, ?_, ?_, ?_, ?_, by decide, ?_, ?_⟩
  · rw [Props.has_assign]
    rfl
  · rw [Props.has_assign]
    rfl
  · intro k h
    rw [Props.get_assign, h]
    rfl
  · intro h
    rw [Props.get_assign, h]
    rfl
  · intro h
    rw [Props.get_assign, h]
    rfl
  · intro k hk
    rw [getThemeStyles_of_themes _ _ k (new_themes _ _ _ _ _ _ _ _ _ _ _ _ _ _),
      Props.lookup_of_own k _ hk]
  · intro k hk hi
    rw [getThemeStyles_of_themes _ _ k (new_themes _ _ _ _ _ _ _ _ _ _ _ _ _ _),
      Props.lookup_of_unknown k _ hk hi]
    rfl

/-- A run of the amended C24 on the template `custom`: `dark` is the default
palette, and the name `solarized`, which the themes do not hold, gives the
`light` palette supplied. -/
theorem new_themes_by_name_witness :
    ∃ T : Props,
      Sample.custom.get "themes" = .obj T ∧
      T.get "dark" = .obj darkTheme ∧
      T.get "light" = .obj (Props.ofList [("backgroundColor", .str "#000000")]) ∧
      getThemeStyles Sample.custom (some "solarized") = .ok (T.get "light") :=
  let ⟨T, hT, _, _, hk, _, hd, _, _, hg⟩ := new_themes_by_name (.str "c") (.str "Custom")
    (.str "d") .undefined .undefined .undefined .undefined .undefined
    (.obj (Props.ofList [("resizable", .bool false), ("pinned", .bool true)]))
    (.obj (Props.ofList [("onResizeEnd", .func 7)]))
    .undefined
    (.obj (Props.ofList [("light", .obj (Props.ofList [("backgroundColor", .str "#000000")]))]))
    .undefined .undefined
  ⟨T, hT, hd (by decide), hk "light" (by decide),
    hg "solarized" (by
      have e : T = defaultThemes.assign (Val.obj (Props.ofList
          [("light", .obj (Props.ofList [("backgroundColor", .str "#000000")]))])).ownProps := by
        have h2 := new_themes (.str "c") (.str "Custom") (.str "d") .undefined .undefined
          .undefined .undefined .undefined
          (.obj (Props.ofList [("resizable", .bool false), ("pinned", .bool true)]))
          (.obj (Props.ofList [("onResizeEnd", .func 7)]))
          .undefined
          (.obj (Props.ofList
            [("light", .obj (Props.ofList [("backgroundColor", .str "#000000")]))]))
          .undefined .undefined
        rw [h2] at hT
        exact (Val.obj.inj hT).symm
      rw [e]
      decide) (by decide)⟩

end NoteTemplate

/-! ## createTemplate -/

/-- C25, as stated, fails: `createTemplate` called with the behaviors
`{resizable: false}` returns a template whose behaviors are that mapping alone;
`draggable` is not defined in it. -/
theorem createTemplate_behaviors_replaced :
    (createTemplate 0 (Props.ofList
        [ ("id", .str "x"), ("name", .str "X"),
          ("behaviors", .obj (Props.ofList [("resizable", .bool false)])) ])).get "behaviors" =
      .obj (Props.ofList [("resizable", .bool false)]) ∧
    ((createTemplate 0 (Props.ofList
        [ ("id", .str "x"), ("name", .str "X"),
          ("behaviors", .obj (Props.ofList [("resizable", .bool false)])) ])).get
        "behaviors").prop "draggable" = .undefined := by
  decide

/-- C25, amended: `createTemplate` applies the default behaviors
(draggable, resizable, editable, closable, all `true`) when no behaviors
mapping is passed; a mapping that is passed becomes the behaviors of the
template as it is. -/
theorem createTemplate_behaviors (applyToRef : Nat) (config : Props) :
    (config.get "behaviors" = .undefined →
      (createTemplate applyToRef config).get "behaviors" =
        .obj (Props.ofList
          [ ("draggable", .bool true), ("resizable", .bool true),
            ("editable", .bool true), ("closable", .bool true) ])) ∧
    (config.get "behaviors" ≠ .undefined →
      (createTemplate applyToRef config).get "behaviors" = config.get "behaviors") := by
  constructor
  · intro h
    show orDefault (config.get "behaviors") createTemplateBehaviors = _
    simp [orDefault, h, createTemplateBehaviors]
  · intro h
    show orDefault (config.get "behaviors") createTemplateBehaviors = _
    simp [orDefault, h]

/-- A run of the amended C25: without a behaviors mapping the four defaults,
with `{checkboxToggle: true}` that mapping. -/
theorem createTemplate_behaviors_witness :
    (createTemplate 0 (Props.ofList [("id", .str "x"), ("name", .str "X")])).get "behaviors" =
      .obj (Props.ofList
        [ ("draggable", .bool true), ("resizable", .bool true),
          ("editable", .bool true), ("closable", .bool true) ]) ∧
    (createTemplate 0 (Props.ofList
        [ ("id", .str "x"), ("name", .str "X"),
          ("behaviors", .obj (Props.ofList [("checkboxToggle", .bool true)])) ])).get
        "behaviors" = .obj (Props.ofList [("checkboxToggle", .bool true)]) :=
  ⟨(createTemplate_behaviors 0 (Props.ofList [("id", .str "x"), ("name", .str "X")])).1
      (by decide),
    (createTemplate_behaviors 0 (Props.ofList
        [ ("id", .str "x"), ("name", .str "X"),
          ("behaviors", .obj (Props.ofList [("checkboxToggle", .bool true)])) ])).2
      (by decide)⟩

/-! ## NoteManager: persistence -/

namespace NoteManager

/-- C26, as stated, fails: after the initial load, with the note `a` stored,
the change that empties the collection writes nothing; the storage still holds
the serialization of `[a]`, which is not that of the empty collection. -/
theorem changeNotes_empty_not_saved :
    (changeNotes Sample.stringify [] Sample.loaded).notes = [] ∧
    (changeNotes Sample.stringify [] Sample.loaded).storage.getItem "canvasNotes" =
      some "[a]" ∧
    Sample.stringify [] = "[]" := by
  decide

/-- C26, amended: the load effect always ends with the initial load done;
after it, a change of the collection to a non-empty one writes the serialized
collection under `canvasNotes` (when the storage accepts the write), so that
the stored value is the serialization of the current collection; a change
that empties the collection leaves the storage as it was. -/
theorem changeNotes_persists (stringify : List Props → String) (notes : List Props)
    (p : Persist) (hdone : p.initialLoadDone = true) :
    (∀ (parse : String → Except JsError (List Props)) (initialNotes : List Props)
        (q : Persist), (loadEffect parse initialNotes q).initialLoadDone = true) ∧
    (changeNotes stringify notes p).notes = notes ∧
    (notes ≠ [] → p.storage.writable = true →
      (changeNotes stringify notes p).storage.getItem "canvasNotes" =
        some (stringify notes)) ∧
    (notes = [] → (changeNotes stringify notes p).storage = p.storage) := by
  refine ⟨?_, ?_, ?_, ?_⟩
  · intro parse initialNotes q
    unfold loadEffect
    by_cases hq : q.initialLoadDone = true
    · simp [hq]
    · simp only [Bool.not_eq_true] at hq
      simp only [hq, Bool.not_false, if_true]
      split
      · split
        · split <;> rfl
        · rfl
      · rfl
  · unfold changeNotes saveEffect
    simp only [hdone, Bool.true_and]
    split
    · split <;> rfl
    · rfl
  · intro hne hw
    have hlen : notes.length > 0 := List.length_pos.mpr hne
    simp [changeNotes, saveEffect, hdone, hlen, Storage.setItem, hw, Storage.getItem,
      List.lookup]
  · intro he
    subst he
    simp [changeNotes, saveEffect]

/-- A run of the amended C26: the collection changes to the notes `a`, `b`. -/
theorem changeNotes_persists_witness :
    (changeNotes Sample.stringify Sample.two.notes Sample.loaded).storage.getItem
      "canvasNotes" = some (Sample.stringify Sample.two.notes) :=
  (changeNotes_persists Sample.stringify Sample.two.notes Sample.loaded rfl).2.2.1
    (by decide) rfl

end NoteManager

/-! ## TemplateEditor: save and cancel -/

namespace TemplateEditor

/-- C27 at the failing input: the editor holds the id `custom-1`, which a
custom template already has.  `registerCustomTemplate` returns `false` and
leaves the collection and the storage as they were; `handleSave` nevertheless
calls `onSave` (with `false` as second argument) and `onClose`, and the
`error` state stays `null`. -/
theorem handleSave_duplicate_closes :
    (NoteTemplates.registerCustomTemplate Sample.stringify
      (newTemplate (fun v => v) (Sample.editor "custom-1" "Second"))
      [Sample.custom1] Sample.storage).1 = false ∧
    (handleSave (fun v => v) Sample.stringify Sample.callbacks
      (Sample.editor "custom-1" "Second") [Sample.custom1] Sample.storage).customTemplates =
        [Sample.custom1] ∧
    (handleSave (fun v => v) Sample.stringify Sample.callbacks
      (Sample.editor "custom-1" "Second") [Sample.custom1] Sample.storage).storage =
        Sample.storage ∧
    (handleSave (fun v => v) Sample.stringify Sample.callbacks
      (Sample.editor "custom-1" "Second") [Sample.custom1] Sample.storage).onSaveCalls.map
        (fun c => c.2) = [.bool false] ∧
    (handleSave (fun v => v) Sample.stringify Sample.callbacks
      (Sample.editor "custom-1" "Second") [Sample.custom1] Sample.storage).onCloseCalls = 1 ∧
    (handleSave (fun v => v) Sample.stringify Sample.callbacks
      (Sample.editor "custom-1" "Second") [Sample.custom1] Sample.storage).error = .null := by
  decide

theorem newTemplate_id (parseInt : Val → Val) (s : State) :
    (newTemplate parseInt s).get "id" = s.id := by
  unfold newTemplate
  split
  · rw [Props.get_set, Props.get_set]
    rfl
  · rfl

theorem handleSave_registers (parseInt : Val → Val) (stringify : List Props → String)
    (cb : Callbacks) (s : State) (customTemplates : List Props) (storage : Storage)
    (hnew : ∀ t ∈ customTemplates, t.get "id" ≠ s.id)
    (hsave : cb.onSaveThrows = none) (hclose : cb.onCloseThrows = none) :
    (handleSave parseInt stringify cb s customTemplates storage).customTemplates =
      customTemplates ++ [newTemplate parseInt s] ∧
    (handleSave parseInt stringify cb s customTemplates storage).onCloseCalls = 1 := by
  have hany : customTemplates.any
      (fun t => strictEq (t.get "id") ((newTemplate parseInt s).get "id")) = false := by
    rw [newTemplate_id]
    rw [List.any_eq_false]
    intro t ht
    simp [strictEq, hnew t ht]
  refine ⟨?_, ?_⟩
  · cases hg : cb.onSaveGiven <;>
      simp [handleSave, NoteTemplates.registerCustomTemplate, hany, hsave, hclose, hg]
  · cases hg : cb.onSaveGiven <;>
      simp [handleSave, NoteTemplates.registerCustomTemplate, hany, hsave, hclose, hg]

/-- C28 at the failing input: the editor was opened for a new template, so its
id is a generated one, here `custom-1a2b3c4d`, and the name field has been
emptied; the custom template `custom-1` is registered.  `handleSave` adds the
template it builds, whose name is the empty string, to the custom templates,
writes them to the storage, calls `onSave` and `onClose`, and the `error`
state stays `null`.  `handleCancel` in that state calls `onClose` once and
registers nothing. -/
theorem handleSave_empty_name_registers :
    (Sample.editor "custom-1a2b3c4d" "").name = .str "" ∧
    (handleSave (fun v => v) Sample.stringify Sample.callbacks
      (Sample.editor "custom-1a2b3c4d" "") [Sample.custom1] Sample.storage).customTemplates =
        [Sample.custom1, newTemplate (fun v => v) (Sample.editor "custom-1a2b3c4d" "")] ∧
    (newTemplate (fun v => v) (Sample.editor "custom-1a2b3c4d" "")).get "name" = .str "" ∧
    (handleSave (fun v => v) Sample.stringify Sample.callbacks
      (Sample.editor "custom-1a2b3c4d" "") [Sample.custom1] Sample.storage).storage ≠
        Sample.storage ∧
    (handleSave (fun v => v) Sample.stringify Sample.callbacks
      (Sample.editor "custom-1a2b3c4d" "") [Sample.custom1] Sample.storage).onSaveCalls.length =
        1 ∧
    (handleSave (fun v => v) Sample.stringify Sample.callbacks
      (Sample.editor "custom-1a2b3c4d" "") [Sample.custom1] Sample.storage).onCloseCalls = 1 ∧
    (handleSave (fun v => v) Sample.stringify Sample.callbacks
      (Sample.editor "custom-1a2b3c4d" "") [Sample.custom1] Sample.storage).error = .null ∧
    (handleCancel (Sample.editor "custom-1a2b3c4d" "") [Sample.custom1]
      Sample.storage).onCloseCalls = 1 ∧
    (handleCancel (Sample.editor "custom-1a2b3c4d" "") [Sample.custom1]
      Sample.storage).customTemplates = [Sample.custom1] := by
  decide

end TemplateEditor

/-! ## TemplateRegistry: registration -/

theorem Props.values_length_set (k : String) (v : Val) :
    (p : Props) → p.has k = true → (p.set k v).values.length = p.values.length
  | .nil, h => by simp [Props.has] at h
  | .cons key value rest, h => by
    have ih := Props.values_length_set k v rest
    by_cases hk : key = k
    · subst hk
      by_cases hr : Props.has key rest = true
      · have hs : Props.has key (Props.set key v rest) = true := by
          rw [Props.has_set]; simp
        simp [Props.set, Props.values, hr, hs, ih hr]
      · simp [Props.set, Props.values, hr]
    · have hrest : Props.has k rest = true := by
        simpa [Props.has, hk] using h
      have e : (k == key) = false := by
        simp only [beq_eq_false_iff_ne, ne_eq]
        exact fun h0 => hk h0.symm
      have hs : Props.has key (Props.set k v rest) = Props.has key rest := by
        rw [Props.has_set, e]; simp
      simp only [Props.set, beq_iff_eq, hk, if_false, Props.values, hs]
      split
      · exact ih hrest
      · simp [ih hrest]

namespace TemplateRegistry

/-- C29, as stated, fails: the map holds `t1` (with a name and a default size)
under `"t1"`; after `registerTemplate({id: "t1", description: "d"})` the lookup
of `"t1"` returns that new object alone, without the name of the prior record. -/
theorem registerTemplate_replaces :
    getTemplateById "t1"
        (registerTemplate (fun _ => "") (some (Props.ofList
          [("id", .str "t1"), ("description", .str "d")]))
          (Props.ofList [("t1", .obj Sample.t1)])).2 =
      .obj (Props.ofList [("id", .str "t1"), ("description", .str "d")]) ∧
    (getTemplateById "t1"
        (registerTemplate (fun _ => "") (some (Props.ofList
          [("id", .str "t1"), ("description", .str "d")]))
          (Props.ofList [("t1", .obj Sample.t1)])).2).prop "name" = .undefined ∧
    Sample.t1.get "name" = .str "T1" := by
  decide

/-- C29, amended: `registerTemplate` with a template whose id is a non-empty
string returns `true` and stores the template under its id in place of any
prior record (a lookup returns the new template itself); when the id was
registered, `getAllTemplates` has as many entries as before.  It returns
`false`, the map unchanged, when the template is absent or has no id. -/
theorem registerTemplate_assigns (toStr : Val → String) (templateMap : Props) :
    (∀ (t : Props) (id : String), t.get "id" = .str id → id ≠ "" →
      (registerTemplate toStr (some t) templateMap).1 = true ∧
      getTemplateById id (registerTemplate toStr (some t) templateMap).2 = .obj t ∧
      (templateMap.has id = true →
        (getAllTemplates (registerTemplate toStr (some t) templateMap).2).length =
          (getAllTemplates templateMap).length)) ∧
    registerTemplate toStr none templateMap = (false, templateMap) ∧
    (∀ t : Props, (t.get "id").truthy = false →
      registerTemplate toStr (some t) templateMap = (false, templateMap)) := by
  refine ⟨?_, rfl, ?_⟩
  · intro t id hid hne
    have ht : (t.get "id").truthy = true := by
      rw [hid]
      simp [Val.truthy, hne]
    have hreg : registerTemplate toStr (some t) templateMap =
        (true, templateMap.set id (.obj t)) := by
      have ht2 : (Val.str id).truthy = true := by rw [← hid]; exact ht
      simp [registerTemplate, hid, ht2]
    rw [hreg]
    refine ⟨rfl, ?_, ?_⟩
    · simp [getTemplateById, Props.lookup, Props.has_set, Props.get_set, Val.or, Val.truthy]
    · intro hhas
      exact Props.values_length_set id (.obj t) templateMap hhas
  · intro t ht
    simp [registerTemplate, ht]

/-- A run of the amended C29: `t2` registered again under `"t2"` in a map
that holds `t1` and `t2`. -/
theorem registerTemplate_assigns_witness :
    (registerTemplate (fun _ => "") (some Sample.t2)
      (Props.ofList [("t1", .obj Sample.t1), ("t2", .obj Sample.t1)])).1 = true ∧
    getTemplateById "t2" (registerTemplate (fun _ => "") (some Sample.t2)
      (Props.ofList [("t1", .obj Sample.t1), ("t2", .obj Sample.t1)])).2 = .obj Sample.t2 ∧
    (getAllTemplates (registerTemplate (fun _ => "") (some Sample.t2)
      (Props.ofList [("t1", .obj Sample.t1), ("t2", .obj Sample.t1)])).2).length =
      (getAllTemplates (Props.ofList [("t1", .obj Sample.t1), ("t2", .obj Sample.t1)])).length :=
  ⟨((registerTemplate_assigns (fun _ => "")
      (Props.ofList [("t1", .obj Sample.t1), ("t2", .obj Sample.t1)])).1
      Sample.t2 "t2" (by decide) (by decide)).1,
    ((registerTemplate_assigns (fun _ => "")
      (Props.ofList [("t1", .obj Sample.t1), ("t2", .obj Sample.t1)])).1
      Sample.t2 "t2" (by decide) (by decide)).2.1,
    ((registerTemplate_assigns (fun _ => "")
      (Props.ofList [("t1", .obj Sample.t1), ("t2", .obj Sample.t1)])).1
      Sample.t2 "t2" (by decide) (by decide)).2.2 (by decide)⟩

end TemplateRegistry

/-! ## Canvas: context menu -/

namespace Canvas

/-- C30 at the failing input: with the templates `t1`, `t2`, the menu at
`{x: 110, y: 220}`, the canvas at `{x: 10, y: 20}` and scale 1, the canvas
point is `{x: 100, y: 200}`.  Choosing `t2` under "Add Specific Note" creates a
note whose `templateId` is `t1` and whose position is the string `t2`;
"Add Note" creates a note whose position is the string `t1`. -/
theorem addSpecificNote_swapped :
    canvasPoint Sample.arith Sample.menu Sample.canvasPosition (.num 1) =
      .obj (Props.ofList [("x", .num 100), ("y", .num 200)]) ∧
    (addSpecificNote Sample.arith [Sample.t1, Sample.t2] "u" Sample.t2 Sample.menu
        Sample.canvasPosition (.num 1) Sample.empty).1.notes.map
        (fun n => (n.get "templateId", n.get "position")) = [(.str "t1", .str "t2")] ∧
    (addDefaultNote Sample.arith [Sample.t1, Sample.t2] "u" Sample.menu
        Sample.canvasPosition (.num 1) Sample.empty).1.notes.map
        (fun n => (n.get "templateId", n.get "position")) = [(.str "t1", .str "t1")] := by
  decide

end Canvas

end CanvasNote
